import Mathlib

/-!
Verification development for the prep-pad cooking assistant backend.

The definitions below are a shallow embedding of the Python source:
`backend/app/agents/voice_assistant.py` (command routing, session state
machine, duration extractor) and `backend/app/agents/recipe_modifier.py`
(deterministic recipe modification fallback), together with the session
creation logic of `backend/routes/recipe_agent.py`.

Modelling conventions:
* Python `None` becomes `Option.none`; Python truthiness checks are
  modelled explicitly (`""`, `0`, `None`, `[]` are falsy).
* Python in-place mutation of `session` / `recipe` objects is modelled by
  returning the post-state explicitly.
* Python exceptions that escape a handler are modelled with `Except PyErr`.
* Python `float` values are modelled by exact (unreduced) fractions.
  Every float-dependent value a *statement* below asserts is evaluated
  only at instances where the IEEE-754 computation is exact and CPython's
  rendering is the plain decimal expansion (short dyadic values such as
  `0.5`, `1.5`, `0.5625`), so those assertions coincide with the source;
  where double rounding or shortest-repr formatting could differ from the
  exact fractions (non-terminating expansions, very long literals,
  scientific-notation magnitudes) nothing is asserted.
* Regular expressions from the source are compiled by hand into leftmost
  matchers over `List Char`; each matcher's derivation from the regex is
  explained at its definition.
* Database writes (`db.add`/`db.commit`) are modelled by a `saved` list of
  recipes persisted as new rows; external LLM calls are modelled by
  explicit parameters carrying the outcome of the call as the source's
  `try/except` wrappers observe it.
-/

namespace PrepPad

/-! ## Python string primitives -/

/-- Whitespace characters matched by Python's `\s` and `str.strip()`. -/
def wsChars : List Char := [' ', '\t', '\n', '\r', '\x0b', '\x0c']

def isWs (c : Char) : Bool := wsChars.contains c

/-- Python `str.lower()` (ASCII range, which is all the source uses). -/
def pyLower (s : String) : String := ⟨s.toList.map Char.toLower⟩

/-- Python `str.strip()`. -/
def pyStrip (s : String) : String :=
  ⟨((s.toList.dropWhile isWs).reverse.dropWhile isWs).reverse⟩

/-- Membership test of `needle` as a contiguous substring of `hay`,
Python's `needle in hay`. -/
def listContainsSub (needle : List Char) : List Char → Bool
  | [] => needle.isEmpty
  | c :: t => needle.isPrefixOf (c :: t) || listContainsSub needle t

def pyContains (hay needle : String) : Bool :=
  listContainsSub needle.toList hay.toList

/-- Rendering of an optional string inside a Python f-string:
`None` prints as `"None"`. -/
def pyReprOpt : Option String → String
  | some s => s
  | none => "None"

/-- Python `str.title()`: an alphabetic character is uppercased when the
previous character is not alphabetic, lowercased otherwise. -/
def titleCaseGo : Bool → List Char → List Char
  | _, [] => []
  | prevAlpha, c :: rest =>
    (if c.isAlpha then (if prevAlpha then c.toLower else c.toUpper) else c)
      :: titleCaseGo c.isAlpha rest

def pyTitleCase (s : String) : String := ⟨titleCaseGo false s.toList⟩

/-! ## Leftmost regex matching

`re.search` returns the leftmost match.  Every pattern in the source has
the shape `lit* (\d+) \s* lit` (possibly with leading `lit \s*` groups) or
is a literal-plus-lazy-capture; for these, trying each suffix of the text
from the left and applying a greedy matcher at its head is exactly
`re.search` (greedy `\d+` cannot usefully backtrack because the character
after the digits must be whitespace or a letter). -/

/-- Try a head-anchored matcher at every suffix, leftmost first. -/
def scanFirst {α : Type} (f : List Char → Option α) : List Char → Option α
  | [] => f []
  | c :: rest =>
    match f (c :: rest) with
    | some a => some a
    | none => scanFirst f rest

/-- Case-insensitive prefix test (for patterns compiled with
`re.IGNORECASE`; on already-lowercased text it coincides with the
case-sensitive test). -/
def isPrefixCI : List Char → List Char → Bool
  | [], _ => true
  | _ :: _, [] => false
  | a :: as, b :: bs => (a.toLower == b.toLower) && isPrefixCI as bs

def digitsToNat (ds : List Char) : Nat :=
  ds.foldl (fun n c => 10 * n + (c.toNat - '0'.toNat)) 0

/-- Head-anchored matcher for `(\d+)\s*LIT...`: a nonempty digit run, then
`\s*`, then the literal `lit` as a (case-insensitive) prefix.  An optional
trailing `s?` in the source regex never affects whether a match exists, so
`minutes?` is matched via the literal `minute` and `mins?` via `min`. -/
def matchNumLit (lit : List Char) (l : List Char) : Option Nat :=
  let ds := l.takeWhile Char.isDigit
  if ds.isEmpty then none
  else
    if isPrefixCI lit ((l.drop ds.length).dropWhile isWs) then
      some (digitsToNat ds)
    else none

/-- Head-anchored matcher for `w₁\s*w₂\s*...\s*(\d+)\s*LIT`. -/
def matchLitsNumLit (lits : List (List Char)) (lit : List Char)
    (l : List Char) : Option Nat :=
  match lits with
  | [] => matchNumLit lit l
  | w :: ws =>
    if isPrefixCI w l then
      matchLitsNumLit ws lit ((l.drop w.length).dropWhile isWs)
    else none

/-! ## DurationExtractor (`_detect_timer_in_instruction`) -/

/-- The ordered `time_patterns` list of `_detect_timer_in_instruction`,
each compiled to a head-anchored matcher:
`(\d+)\s*minutes?`, `(\d+)\s*mins?`, `(\d+)\s*min`,
`for\s*(\d+)\s*minutes?`, `cook\s*for\s*(\d+)\s*minutes?`,
`bake\s*for\s*(\d+)\s*minutes?`, `simmer\s*for\s*(\d+)\s*minutes?`,
`boil\s*for\s*(\d+)\s*minutes?`. -/
def duration_patterns : List (List Char → Option Nat) :=
  [ matchNumLit "minute".toList
  , matchNumLit "min".toList
  , matchNumLit "min".toList
  , matchLitsNumLit ["for".toList] "minute".toList
  , matchLitsNumLit ["cook".toList, "for".toList] "minute".toList
  , matchLitsNumLit ["bake".toList, "for".toList] "minute".toList
  , matchLitsNumLit ["simmer".toList, "for".toList] "minute".toList
  , matchLitsNumLit ["boil".toList, "for".toList] "minute".toList ]

/-- Per-pattern step of `_detect_timer_in_instruction`: take the first
match of the current pattern; if it is in range `0 < n ≤ 300` return it,
otherwise fall through to the next pattern. -/
def detect_timer_go (text : List Char) :
    List (List Char → Option Nat) → Option Nat
  | [] => none
  | p :: ps =>
    match scanFirst p text with
    | some n => if 0 < n ∧ n ≤ 300 then some n else detect_timer_go text ps
    | none => detect_timer_go text ps

/-- `VoiceCookingAssistant._detect_timer_in_instruction` (on a string
argument; the `None`-argument crash is modelled at `enhance_timer`). -/
def detect_timer_in_instruction (instruction : String) : Option Nat :=
  detect_timer_go instruction.toList duration_patterns

example : detect_timer_in_instruction "Simmer for 12 minutes" = some 12 := by decide
example : detect_timer_in_instruction "Preheat oven to 400 degrees" = none := by decide

/-! ## Data model (`schemas.py`, `models.py`) -/

/-- `schemas.Ingredient`. -/
structure Ingredient where
  name : String
  amount : Option String
  unit : Option String
  notes : Option String
deriving DecidableEq, Repr

/-- `schemas.PrepStep`. -/
structure PrepStep where
  instruction : String
  time_estimate : Option Int
  category : Option String
deriving DecidableEq, Repr

/-- `schemas.CookStep`. -/
structure CookStep where
  step_number : Int
  instruction : String
  time_estimate : Option Int
  parallel_tasks : Option (List String)
deriving DecidableEq, Repr

/-- `schemas.OptimizedRecipe`. -/
structure OptimizedRecipe where
  title : String
  ingredients : List Ingredient
  prep_phase : List PrepStep
  cook_phase : List CookStep
  total_time : Option Int
  prep_time : Option Int
  cook_time : Option Int
  servings : Option Int
  difficulty : Option String
deriving DecidableEq, Repr

/-- `models.CookingSession` (the fields the orchestrator reads/writes;
ids and timestamps are irrelevant to the claims). -/
structure CookingSession where
  current_step : Option String
  current_phase : Option String
  is_active : Bool
deriving DecidableEq, Repr

/-- `schemas.IngredientSubstitution`. -/
structure IngredientSubstitution where
  original_name : String
  original_amount : String
  original_unit : String
  substitute_name : String
  substitute_amount : String
  substitute_unit : String
  substitution_reason : String
  substitution_notes : Option String
deriving DecidableEq, Repr

def default_prep : PrepStep := ⟨"", none, none⟩

def default_cook : CookStep := ⟨0, "", none, none⟩

/-! ## Session state machine (`voice_assistant.py`) -/

/-- The common loop of `_get_current_prep_index` / `_get_current_cook_index`:
`for i, step in enumerate(steps): if step.instruction == target: return i`.
Returns the index of the first step whose instruction equals `target`. -/
def index_of_step {α : Type} (f : α → String) (target : String) :
    List α → Option Nat
  | [] => none
  | a :: rest =>
    if f a = target then some 0 else (index_of_step f target rest).map (· + 1)

/-- `VoiceCookingAssistant._get_current_prep_index`.  The guard
`if not session.current_step or not recipe.prep_phase: return 0` treats
both `None` and the empty string as falsy. -/
def get_current_prep_index (session : CookingSession) (r : OptimizedRecipe) :
    Nat :=
  match session.current_step with
  | none => 0
  | some cs =>
    if cs = "" then 0
    else if r.prep_phase.isEmpty then 0
    else (index_of_step (·.instruction) cs r.prep_phase).getD 0

/-- `VoiceCookingAssistant._get_current_cook_index`. -/
def get_current_cook_index (session : CookingSession) (r : OptimizedRecipe) :
    Nat :=
  match session.current_step with
  | none => 0
  | some cs =>
    if cs = "" then 0
    else if r.cook_phase.isEmpty then 0
    else (index_of_step (·.instruction) cs r.cook_phase).getD 0

/-- `VoiceCookingAssistant._calculate_remaining_prep_time`:
`sum(step.time_estimate or 0 for step in prep_phase[current_index:])`. -/
def calculate_remaining_prep_time (session : CookingSession)
    (r : OptimizedRecipe) : Int :=
  if r.prep_phase.isEmpty then 0
  else
    ((r.prep_phase.drop (get_current_prep_index session r)).map
      (fun st => st.time_estimate.getD 0)).sum

/-- `VoiceCookingAssistant._calculate_remaining_cook_time`. -/
def calculate_remaining_cook_time (session : CookingSession)
    (r : OptimizedRecipe) : Int :=
  if r.cook_phase.isEmpty then 0
  else
    ((r.cook_phase.drop (get_current_cook_index session r)).map
      (fun st => st.time_estimate.getD 0)).sum

/-- The `timer_message` built by `_enhance_step_with_timer_info`. -/
def timer_message (m : Nat) : String :=
  "This step requires " ++ toString m ++ " minute" ++
    (if m ≠ 1 then "s" else "") ++
    ". A timer will be available to help you track the time."

/-- The suffix `_handle_next_step` appends to its response when the newly
selected step contains a timer (`" " + timer_message` when `has_timer`). -/
def timer_suffix (instruction : String) : String :=
  match detect_timer_in_instruction instruction with
  | some m => " " ++ timer_message m
  | none => ""

/-- `VoiceCookingAssistant._handle_next_step`.  The Python method mutates
`session` in place and returns a response dict; here the mutated session is
returned alongside the `response` text.  The list index `prep[idx+1]`
(resp. `cook[idx+1]`) is guarded by `idx < len - 1`, so the `getD` default
is never used. -/
def handle_next_step (session : CookingSession) (r : OptimizedRecipe) :
    CookingSession × String :=
  if r.prep_phase.isEmpty ∧ r.cook_phase.isEmpty then
    (session, "No recipe steps available. Please parse a recipe first.")
  else if session.current_phase = some "prep" ∧ ¬r.prep_phase.isEmpty then
    let idx := get_current_prep_index session r
    if idx < r.prep_phase.length - 1 then
      let instr := (r.prep_phase.getD (idx + 1) default_prep).instruction
      ({ session with current_step := some instr },
        "Next prep step: " ++ instr ++ timer_suffix instr)
    else
      match r.cook_phase with
      | c0 :: _ =>
        ({ session with current_phase := some "cook",
                        current_step := some c0.instruction },
          "Prep complete! Starting cooking phase. Step 1: " ++
            c0.instruction ++ timer_suffix c0.instruction)
      | [] =>
        ({ session with current_phase := some "cook", is_active := false },
          "Prep complete! No cooking steps available.")
  else if session.current_phase = some "cook" ∧ ¬r.cook_phase.isEmpty then
    let idx := get_current_cook_index session r
    if idx < r.cook_phase.length - 1 then
      let instr := (r.cook_phase.getD (idx + 1) default_cook).instruction
      ({ session with current_step := some instr },
        "Step " ++ toString (idx + 2) ++ ": " ++ instr ++ timer_suffix instr)
    else
      ({ session with is_active := false },
        "Congratulations! Your recipe is complete. Enjoy your meal!")
  else
    (session, "No more steps available in this phase.")

/-- `VoiceCookingAssistant._handle_resume`: unconditionally sets
`is_active = True` and echoes the stored current step. -/
def handle_resume (session : CookingSession) : CookingSession × String :=
  ({ session with is_active := true },
   "Resuming cooking. Current step: " ++ pyReprOpt session.current_step)

/-- `VoiceCookingAssistant._handle_pause`. -/
def handle_pause (session : CookingSession) : CookingSession × String :=
  ({ session with is_active := false },
   "Cooking session paused. Say 'resume' when ready to continue.")

/-- Session created by the `/start_cooking/{recipe_id}` route: current
step is the first prep instruction (or `None` when there are no prep
steps), phase `"prep"`, active. -/
def start_session (r : OptimizedRecipe) : CookingSession :=
  { current_step := r.prep_phase.head?.map (·.instruction)
  , current_phase := some "prep"
  , is_active := true }

/-- `k` successive `_handle_next_step` calls (the session after issuing
the advance command `k` times). -/
def advanceN (r : OptimizedRecipe) : Nat → CookingSession → CookingSession
  | 0, s => s
  | n + 1, s => (handle_next_step (advanceN r n s) r).1

/-! ## The session walk

`session_at r k` is the session state after `k` advance commands on a
fresh session, for a recipe whose prep phase is nonempty and whose step
instructions are nonempty and duplicate-free within each phase (the
conditions under which the text-matching step pointer of the source
resolves to the position actually reached). -/

def session_at (r : OptimizedRecipe) (k : Nat) : CookingSession :=
  if k < r.prep_phase.length then
    { current_step := some ((r.prep_phase.getD k default_prep).instruction)
    , current_phase := some "prep", is_active := true }
  else if k < r.prep_phase.length + r.cook_phase.length then
    { current_step :=
        some ((r.cook_phase.getD (k - r.prep_phase.length) default_cook).instruction)
    , current_phase := some "cook", is_active := true }
  else if r.cook_phase.length = 0 then
    { current_step :=
        some ((r.prep_phase.getD (r.prep_phase.length - 1) default_prep).instruction)
    , current_phase := some "cook", is_active := false }
  else
    { current_step :=
        some ((r.cook_phase.getD (r.cook_phase.length - 1) default_cook).instruction)
    , current_phase := some "cook", is_active := false }

/-- Conditions under which the text-matching step pointer behaves like a
structural index: at least one prep step, and nonempty, pairwise-distinct
instructions within each phase. -/
def GoodRecipe (r : OptimizedRecipe) : Prop :=
  1 ≤ r.prep_phase.length ∧
  (∀ st ∈ r.prep_phase, st.instruction ≠ "") ∧
  (∀ st ∈ r.cook_phase, st.instruction ≠ "") ∧
  (r.prep_phase.map (·.instruction)).Nodup ∧
  (r.cook_phase.map (·.instruction)).Nodup

instance (r : OptimizedRecipe) : Decidable (GoodRecipe r) := by
  unfold GoodRecipe; infer_instance

theorem index_of_step_first {α : Type} (f : α → String) (t : String) (d : α)
    (l : List α) (i : Nat) (hi : i < l.length)
    (hmatch : f (l.getD i d) = t)
    (hfirst : ∀ j, j < i → f (l.getD j d) ≠ t) :
    index_of_step f t l = some i := by
  induction l generalizing i with
  | nil => simp at hi
  | cons a rest ih =>
    cases i with
    | zero =>
      rw [List.getD_cons_zero] at hmatch
      simp [index_of_step, hmatch]
    | succ i' =>
      have ha : ¬ f a = t := by
        have h0 := hfirst 0 (Nat.succ_pos i')
        rwa [List.getD_cons_zero] at h0
      have hrest : index_of_step f t rest = some i' := by
        refine ih i' (by simpa using hi) ?_ ?_
        · rwa [List.getD_cons_succ] at hmatch
        · intro j hj
          have := hfirst (j + 1) (by omega)
          rwa [List.getD_cons_succ] at this
      simp [index_of_step, ha, hrest]

theorem index_of_step_none {α : Type} (f : α → String) (t : String)
    (l : List α) (h : ∀ a ∈ l, f a ≠ t) : index_of_step f t l = none := by
  induction l with
  | nil => rfl
  | cons a rest ih =>
    simp [index_of_step, h a (by simp)]
    exact ih (fun b hb => h b (by simp [hb]))

theorem index_of_step_at_nodup {α : Type} (f : α → String) (d : α)
    (l : List α) (hnd : (l.map f).Nodup) (k : Nat) (hk : k < l.length) :
    index_of_step f (f (l.getD k d)) l = some k := by
  apply index_of_step_first f _ d l k hk rfl
  intro j hj hcon
  have hjl : j < l.length := lt_trans hj hk
  have hjm : j < (l.map f).length := by simpa using hjl
  have hkm : k < (l.map f).length := by simpa using hk
  have h1 : (l.map f)[j] = (l.map f)[k] := by
    rw [List.getElem_map, List.getElem_map,
      ← List.getD_eq_getElem l d hjl, ← List.getD_eq_getElem l d hk]
    exact hcon
  have := (List.Nodup.getElem_inj_iff hnd).1 h1
  omega

theorem getD_mem {α : Type} (l : List α) (d : α) (k : Nat) (hk : k < l.length) :
    l.getD k d ∈ l := by
  rw [List.getD_eq_getElem l d hk]
  exact List.getElem_mem hk

/-- In a `GoodRecipe`, the text-matching prep index resolves a prep-step
instruction to its (unique) position. -/
theorem get_prep_index_at (r : OptimizedRecipe) (hg : GoodRecipe r)
    (k : Nat) (hk : k < r.prep_phase.length) (ph : Option String) (a : Bool) :
    get_current_prep_index
      ⟨some ((r.prep_phase.getD k default_prep).instruction), ph, a⟩ r = k := by
  obtain ⟨hp, hne, -, hnd, -⟩ := hg
  have hmem := getD_mem r.prep_phase default_prep k hk
  have hcs : (r.prep_phase.getD k default_prep).instruction ≠ "" := hne _ hmem
  have hpe : r.prep_phase.isEmpty = false := by
    cases h : r.prep_phase with
    | nil => rw [h] at hk; simp at hk
    | cons _ _ => simp [h]
  unfold get_current_prep_index
  simp only [hcs, hpe, if_false, Bool.false_eq_true, ite_false, if_neg hcs]
  rw [index_of_step_at_nodup (·.instruction) default_prep r.prep_phase hnd k hk]
  rfl

/-- In a `GoodRecipe`, the text-matching cook index resolves a cook-step
instruction to its (unique) position. -/
theorem get_cook_index_at (r : OptimizedRecipe) (hg : GoodRecipe r)
    (j : Nat) (hj : j < r.cook_phase.length) (ph : Option String) (a : Bool) :
    get_current_cook_index
      ⟨some ((r.cook_phase.getD j default_cook).instruction), ph, a⟩ r = j := by
  obtain ⟨-, -, hne, -, hnd⟩ := hg
  have hmem := getD_mem r.cook_phase default_cook j hj
  have hcs : (r.cook_phase.getD j default_cook).instruction ≠ "" := hne _ hmem
  have hpe : r.cook_phase.isEmpty = false := by
    cases h : r.cook_phase with
    | nil => rw [h] at hj; simp at hj
    | cons _ _ => simp [h]
  unfold get_current_cook_index
  simp only [hpe, Bool.false_eq_true, ite_false, if_neg hcs]
  rw [index_of_step_at_nodup (·.instruction) default_cook r.cook_phase hnd j hj]
  rfl

theorem prep_isEmpty_false (r : OptimizedRecipe) (hg : GoodRecipe r) :
    r.prep_phase.isEmpty = false := by
  have hp := hg.1
  cases h : r.prep_phase with
  | nil => rw [h] at hp; simp at hp
  | cons _ _ => simp [h]

theorem handle_prep_stay (r : OptimizedRecipe) (hg : GoodRecipe r) (k : Nat)
    (a : Bool) (hk1 : k + 1 < r.prep_phase.length) :
    (handle_next_step
      ⟨some ((r.prep_phase.getD k default_prep).instruction), some "prep", a⟩ r).1 =
      ⟨some ((r.prep_phase.getD (k + 1) default_prep).instruction), some "prep", a⟩ := by
  have hpe := prep_isEmpty_false r hg
  have hkp : k < r.prep_phase.length := by omega
  unfold handle_next_step
  rw [if_neg (by simp [hpe]), if_pos ⟨rfl, by simp [hpe]⟩]
  simp only [get_prep_index_at r hg k hkp]
  rw [if_pos (by omega : k < r.prep_phase.length - 1)]

theorem handle_prep_to_cook (r : OptimizedRecipe) (hg : GoodRecipe r) (k : Nat)
    (a : Bool) (hk : k < r.prep_phase.length) (hk1 : ¬ k < r.prep_phase.length - 1)
    (c0 : CookStep) (rest : List CookStep) (hc : r.cook_phase = c0 :: rest) :
    (handle_next_step
      ⟨some ((r.prep_phase.getD k default_prep).instruction), some "prep", a⟩ r).1 =
      ⟨some c0.instruction, some "cook", a⟩ := by
  have hpe := prep_isEmpty_false r hg
  unfold handle_next_step
  rw [if_neg (by simp [hpe]), if_pos ⟨rfl, by simp [hpe]⟩]
  simp only [get_prep_index_at r hg k hk]
  rw [if_neg hk1, hc]

theorem handle_prep_to_empty_cook (r : OptimizedRecipe) (hg : GoodRecipe r)
    (k : Nat) (a : Bool) (hk : k < r.prep_phase.length)
    (hk1 : ¬ k < r.prep_phase.length - 1) (hc : r.cook_phase = []) :
    (handle_next_step
      ⟨some ((r.prep_phase.getD k default_prep).instruction), some "prep", a⟩ r).1 =
      ⟨some ((r.prep_phase.getD k default_prep).instruction), some "cook", false⟩ := by
  have hpe := prep_isEmpty_false r hg
  unfold handle_next_step
  rw [if_neg (by simp [hpe]), if_pos ⟨rfl, by simp [hpe]⟩]
  simp only [get_prep_index_at r hg k hk]
  rw [if_neg hk1, hc]

theorem cook_isEmpty_false (r : OptimizedRecipe) (j : Nat)
    (hj : j < r.cook_phase.length) : r.cook_phase.isEmpty = false := by
  cases h : r.cook_phase with
  | nil => rw [h] at hj; simp at hj
  | cons _ _ => simp [h]

theorem handle_cook_stay (r : OptimizedRecipe) (hg : GoodRecipe r) (j : Nat)
    (a : Bool) (hj1 : j + 1 < r.cook_phase.length) :
    (handle_next_step
      ⟨some ((r.cook_phase.getD j default_cook).instruction), some "cook", a⟩ r).1 =
      ⟨some ((r.cook_phase.getD (j + 1) default_cook).instruction), some "cook", a⟩ := by
  have hpe := prep_isEmpty_false r hg
  have hce := cook_isEmpty_false r j (by omega)
  have hjc : j < r.cook_phase.length := by omega
  unfold handle_next_step
  rw [if_neg (by simp [hpe]), if_neg (by simp), if_pos ⟨rfl, by simp [hce]⟩]
  simp only [get_cook_index_at r hg j hjc]
  rw [if_pos (by omega : j < r.cook_phase.length - 1)]

theorem handle_cook_finish (r : OptimizedRecipe) (hg : GoodRecipe r) (j : Nat)
    (a : Bool) (hj : j < r.cook_phase.length)
    (hj1 : ¬ j + 1 < r.cook_phase.length) :
    handle_next_step
      ⟨some ((r.cook_phase.getD j default_cook).instruction), some "cook", a⟩ r =
      (⟨some ((r.cook_phase.getD j default_cook).instruction), some "cook", false⟩,
       "Congratulations! Your recipe is complete. Enjoy your meal!") := by
  have hpe := prep_isEmpty_false r hg
  have hce := cook_isEmpty_false r j hj
  unfold handle_next_step
  rw [if_neg (by simp [hpe]), if_neg (by simp), if_pos ⟨rfl, by simp [hce]⟩]
  simp only [get_cook_index_at r hg j hj]
  rw [if_neg (by omega : ¬ j < r.cook_phase.length - 1)]

theorem handle_cook_phase_empty_cook (r : OptimizedRecipe) (hg : GoodRecipe r)
    (cs : Option String) (a : Bool) (hc : r.cook_phase = []) :
    handle_next_step ⟨cs, some "cook", a⟩ r = (⟨cs, some "cook", a⟩,
      "No more steps available in this phase.") := by
  have hpe := prep_isEmpty_false r hg
  unfold handle_next_step
  rw [if_neg (by simp [hpe]), if_neg (by simp), if_neg (by simp [hc])]

/-- One advance command moves `session_at r k` to `session_at r (k+1)`,
capped at the terminal state `session_at r (p + c)`. -/
theorem handle_next_step_session_at (r : OptimizedRecipe) (hg : GoodRecipe r)
    (k : Nat) (hk : k ≤ r.prep_phase.length + r.cook_phase.length) :
    (handle_next_step (session_at r k) r).1 =
      session_at r (min (k + 1) (r.prep_phase.length + r.cook_phase.length)) := by
  have hp : 1 ≤ r.prep_phase.length := hg.1
  by_cases hkp : k < r.prep_phase.length
  · have hses : session_at r k =
        ⟨some ((r.prep_phase.getD k default_prep).instruction), some "prep", true⟩ := by
      unfold session_at; rw [if_pos hkp]
    rw [hses]
    by_cases hnext : k + 1 < r.prep_phase.length
    · have hmin : min (k + 1) (r.prep_phase.length + r.cook_phase.length) = k + 1 := by
        omega
      rw [hmin, handle_prep_stay r hg k true hnext]
      unfold session_at
      rw [if_pos hnext]
    · have hklast : k = r.prep_phase.length - 1 := by omega
      by_cases hc0 : r.cook_phase.length = 0
      · have hc : r.cook_phase = [] := List.length_eq_zero.mp hc0
        have hmin : min (k + 1) (r.prep_phase.length + r.cook_phase.length) =
            r.prep_phase.length := by omega
        rw [hmin, handle_prep_to_empty_cook r hg k true hkp (by omega) hc]
        unfold session_at
        rw [if_neg (by omega), if_neg (by omega), if_pos hc0, hklast]
      · have hne : r.cook_phase ≠ [] := by
          intro h
          rw [h] at hc0
          exact hc0 rfl
        obtain ⟨c0, rest, hc⟩ := List.exists_cons_of_ne_nil hne
        have hcpos : 0 < r.cook_phase.length := by omega
        have hmin : min (k + 1) (r.prep_phase.length + r.cook_phase.length) =
            r.prep_phase.length := by omega
        rw [hmin, handle_prep_to_cook r hg k true hkp (by omega) c0 rest hc]
        unfold session_at
        rw [if_neg (by omega), if_pos (by omega)]
        have hz : r.prep_phase.length - r.prep_phase.length = 0 := by omega
        rw [hz, hc, List.getD_cons_zero]
  · by_cases hkc : k < r.prep_phase.length + r.cook_phase.length
    · have hses : session_at r k =
          ⟨some ((r.cook_phase.getD (k - r.prep_phase.length) default_cook).instruction),
            some "cook", true⟩ := by
        unfold session_at; rw [if_neg hkp, if_pos hkc]
      rw [hses]
      by_cases hnext : k + 1 < r.prep_phase.length + r.cook_phase.length
      · have hmin : min (k + 1) (r.prep_phase.length + r.cook_phase.length) = k + 1 := by
          omega
        have hj1 : (k - r.prep_phase.length) + 1 < r.cook_phase.length := by omega
        rw [hmin, handle_cook_stay r hg (k - r.prep_phase.length) true hj1]
        unfold session_at
        rw [if_neg (by omega), if_pos hnext]
        have : k + 1 - r.prep_phase.length = (k - r.prep_phase.length) + 1 := by omega
        rw [this]
      · have hmin : min (k + 1) (r.prep_phase.length + r.cook_phase.length) =
            r.prep_phase.length + r.cook_phase.length := by omega
        have hj : k - r.prep_phase.length < r.cook_phase.length := by omega
        have hj1 : ¬ (k - r.prep_phase.length) + 1 < r.cook_phase.length := by omega
        have hlhs := handle_cook_finish r hg (k - r.prep_phase.length) true hj hj1
        rw [hmin, congrArg Prod.fst hlhs]
        unfold session_at
        rw [if_neg (by omega), if_neg (by omega), if_neg (by omega)]
        have : k - r.prep_phase.length = r.cook_phase.length - 1 := by omega
        rw [this]
    · have hkeq : k = r.prep_phase.length + r.cook_phase.length := by omega
      have hmin : min (k + 1) (r.prep_phase.length + r.cook_phase.length) = k := by omega
      rw [hmin]
      by_cases hc0 : r.cook_phase.length = 0
      · have hc : r.cook_phase = [] := List.length_eq_zero.mp hc0
        have hses : session_at r k =
            ⟨some ((r.prep_phase.getD (r.prep_phase.length - 1) default_prep).instruction),
              some "cook", false⟩ := by
          unfold session_at
          rw [if_neg (by omega), if_neg (by omega), if_pos hc0]
        rw [hses, congrArg Prod.fst (handle_cook_phase_empty_cook r hg _ false hc)]
      · have hcpos : 0 < r.cook_phase.length := by omega
        have hses : session_at r k =
            ⟨some ((r.cook_phase.getD (r.cook_phase.length - 1) default_cook).instruction),
              some "cook", false⟩ := by
          unfold session_at
          rw [if_neg (by omega), if_neg (by omega), if_neg (by omega)]
        have hj : r.cook_phase.length - 1 < r.cook_phase.length := by omega
        have hj1 : ¬ (r.cook_phase.length - 1) + 1 < r.cook_phase.length := by omega
        rw [hses, congrArg Prod.fst (handle_cook_finish r hg _ false hj hj1)]

/-- The fresh session is the walk's position 0 (for a recipe with at least
one prep step). -/
theorem start_session_eq (r : OptimizedRecipe) (hg : GoodRecipe r) :
    start_session r = session_at r 0 := by
  have hp : 1 ≤ r.prep_phase.length := hg.1
  unfold start_session session_at
  rw [if_pos (by omega : 0 < r.prep_phase.length)]
  cases h : r.prep_phase with
  | nil => rw [h] at hp; simp at hp
  | cons st rest => rfl

theorem advanceN_session_at (r : OptimizedRecipe) (hg : GoodRecipe r) (k : Nat) :
    advanceN r k (start_session r) =
      session_at r (min k (r.prep_phase.length + r.cook_phase.length)) := by
  induction k with
  | zero =>
    rw [Nat.zero_min]
    exact start_session_eq r hg
  | succ n ih =>
    show (handle_next_step (advanceN r n (start_session r)) r).1 = _
    rw [ih, handle_next_step_session_at r hg
      (min n (r.prep_phase.length + r.cook_phase.length)) (by omega)]
    congr 1
    omega

/-! ## Claim C1 -/

/-- C1 counterexample recipe: zero prep steps, one cook step
(`p + c = 1 ≥ 1`). -/
def zeroPrepRecipe : OptimizedRecipe :=
  { title := "Stuck", ingredients := []
  , prep_phase := []
  , cook_phase := [⟨1, "Boil water gently", some 5, none⟩]
  , total_time := none, prep_time := none, cook_time := none
  , servings := some 2, difficulty := none }

/-- C1, counterexample.  The claim asserts every recipe with `p + c ≥ 1`
steps reaches `Complete` after `p + c` advances.  For a recipe with `p = 0`
prep steps and `c = 1` cook step, the fresh session is in phase `"prep"`
with no stored step, and the advance handler's prep branch requires a
nonempty prep phase while its cook branch requires phase `"cook"`, so the
advance falls through to the "No more steps available in this phase."
branch and leaves the session unchanged and active forever: after
`p + c = 1` advances the session is not `Complete`. -/
theorem C1_counterexample :
    advanceN zeroPrepRecipe 1 (start_session zeroPrepRecipe) =
        start_session zeroPrepRecipe ∧
    (advanceN zeroPrepRecipe 1 (start_session zeroPrepRecipe)).is_active = true ∧
    (handle_next_step (start_session zeroPrepRecipe) zeroPrepRecipe).2 =
      "No more steps available in this phase." := by
  exact ⟨rfl, rfl, rfl⟩

/-- C1 (amended): for every recipe with at least one prep step whose step
instructions are nonempty and pairwise distinct within each phase, a fresh
session walks `Prep` positions `0..p-1`, then `Cook` positions `0..c-1`,
staying active for the first `p + c - 1` advances; the `(p + c)`-th advance
reaches the completed state (`is_active = false`, the structural
`is_complete` signal), a further advance leaves the session state
unchanged, and (when the cook phase is nonempty) it answers with the
completion message.  (For `p = 0` the session instead never advances, and
the resolution of positions by stored-instruction text requires the
distinctness conditions; see `C1_counterexample` and claim C10.) -/
theorem C1_advance_state_machine (r : OptimizedRecipe) (hg : GoodRecipe r) :
    (∀ k, k < r.prep_phase.length + r.cook_phase.length →
        (advanceN r k (start_session r)).is_active = true) ∧
    (advanceN r (r.prep_phase.length + r.cook_phase.length)
        (start_session r)).is_active = false ∧
    (handle_next_step
        (advanceN r (r.prep_phase.length + r.cook_phase.length) (start_session r)) r).1 =
      advanceN r (r.prep_phase.length + r.cook_phase.length) (start_session r) ∧
    (∀ k, k < r.prep_phase.length →
        advanceN r k (start_session r) =
          ⟨some ((r.prep_phase.getD k default_prep).instruction), some "prep", true⟩) ∧
    (∀ k, r.prep_phase.length ≤ k →
        k < r.prep_phase.length + r.cook_phase.length →
        advanceN r k (start_session r) =
          ⟨some ((r.cook_phase.getD (k - r.prep_phase.length) default_cook).instruction),
            some "cook", true⟩) ∧
    (0 < r.cook_phase.length →
      (handle_next_step (advanceN r (r.prep_phase.length + r.cook_phase.length)
          (start_session r)) r).2 =
        "Congratulations! Your recipe is complete. Enjoy your meal!") := by
  have hterm : advanceN r (r.prep_phase.length + r.cook_phase.length) (start_session r) =
      session_at r (r.prep_phase.length + r.cook_phase.length) := by
    rw [advanceN_session_at r hg]
    congr 1
    omega
  have hat : ∀ k, k < r.prep_phase.length + r.cook_phase.length →
      advanceN r k (start_session r) = session_at r k := by
    intro k hk
    rw [advanceN_session_at r hg]
    congr 1
    omega
  refine ⟨?_, ?_, ?_, ?_, ?_, ?_⟩
  · intro k hk
    rw [hat k hk]
    unfold session_at
    by_cases h1 : k < r.prep_phase.length
    · rw [if_pos h1]
    · rw [if_neg h1, if_pos hk]
  · rw [hterm]
    unfold session_at
    rw [if_neg (by omega), if_neg (by omega)]
    by_cases h0 : r.cook_phase.length = 0
    · rw [if_pos h0]
    · rw [if_neg h0]
  · rw [hterm,
      handle_next_step_session_at r hg (r.prep_phase.length + r.cook_phase.length)
        (le_refl _)]
    congr 1
    omega
  · intro k hk
    rw [hat k (by omega)]
    unfold session_at
    rw [if_pos hk]
  · intro k hk1 hk2
    rw [hat k hk2]
    unfold session_at
    rw [if_neg (by omega), if_pos hk2]
  · intro hc
    have hses : session_at r (r.prep_phase.length + r.cook_phase.length) =
        ⟨some ((r.cook_phase.getD (r.cook_phase.length - 1) default_cook).instruction),
          some "cook", false⟩ := by
      unfold session_at
      rw [if_neg (by omega), if_neg (by omega), if_neg (by omega)]
    rw [hterm, hses,
      handle_cook_finish r hg (r.cook_phase.length - 1) false (by omega) (by omega)]

/-- The 2-prep / 1-cook recipe of the spec's end-to-end property, used as
the concrete witness input. -/
def twoPrepOneCookRecipe : OptimizedRecipe :=
  { title := "Demo", ingredients := []
  , prep_phase := [⟨"Chop the onions", some 2, none⟩, ⟨"Mix the sauce", some 3, none⟩]
  , cook_phase := [⟨1, "Fry everything", some 5, none⟩]
  , total_time := some 10, prep_time := some 5, cook_time := some 5
  , servings := some 2, difficulty := none }

/-- C1 witness: the amended theorem applied to the concrete 2-prep /
1-cook recipe; after `p + c = 3` advances the session is complete. -/
theorem C1_advance_state_machine_witness :
    (advanceN twoPrepOneCookRecipe
      (twoPrepOneCookRecipe.prep_phase.length + twoPrepOneCookRecipe.cook_phase.length)
      (start_session twoPrepOneCookRecipe)).is_active = false :=
  (C1_advance_state_machine twoPrepOneCookRecipe (by decide)).2.1

/-! ## Claim C2 -/

/-- C2, counterexample: a session that has completed its recipe (one prep
step, zero cook steps, one advance) has `is_active = false`; the claim
says `resume` must fail with `InvalidStateError` and must not set the
session active, but `_handle_resume` unconditionally sets
`is_active = True` and returns a plain resume message. -/
theorem C2_counterexample :
    (advanceN
      { title := "Tea", ingredients := []
      , prep_phase := [⟨"Chop the onions", some 1, none⟩]
      , cook_phase := []
      , total_time := none, prep_time := none, cook_time := none
      , servings := some 1, difficulty := none } 1
      (start_session
        { title := "Tea", ingredients := []
        , prep_phase := [⟨"Chop the onions", some 1, none⟩]
        , cook_phase := []
        , total_time := none, prep_time := none, cook_time := none
        , servings := some 1, difficulty := none })).is_active = false ∧
    (handle_resume (advanceN
      { title := "Tea", ingredients := []
      , prep_phase := [⟨"Chop the onions", some 1, none⟩]
      , cook_phase := []
      , total_time := none, prep_time := none, cook_time := none
      , servings := some 1, difficulty := none } 1
      (start_session
        { title := "Tea", ingredients := []
        , prep_phase := [⟨"Chop the onions", some 1, none⟩]
        , cook_phase := []
        , total_time := none, prep_time := none, cook_time := none
        , servings := some 1, difficulty := none }))).1.is_active = true := by
  exact ⟨rfl, rfl⟩

/-- C2 (amended): `resume` never checks for completion and there is no
`InvalidStateError` path: on every session (completed or not) it sets
`active = true`, leaves phase and step unchanged, and returns the resume
message built from the stored current step. -/
theorem C2_resume_always_activates (s : CookingSession) :
    handle_resume s =
      ({ s with is_active := true },
        "Resuming cooking. Current step: " ++ pyReprOpt s.current_step) ∧
    (handle_resume s).1.current_step = s.current_step ∧
    (handle_resume s).1.current_phase = s.current_phase := by
  exact ⟨rfl, rfl, rfl⟩

/-! ## Claim C10 -/

/-- Recipe with duplicate prep instructions (positions 0 and 2), used to
exhibit first-occurrence resolution. -/
def duplicateStepRecipe : OptimizedRecipe :=
  { title := "Dup", ingredients := []
  , prep_phase := [⟨"Chop the carrots", some 1, none⟩, ⟨"Rest the dough", some 2, none⟩,
      ⟨"Chop the carrots", some 3, none⟩, ⟨"Serve warm", some 1, none⟩]
  , cook_phase := []
  , total_time := none, prep_time := none, cook_time := none
  , servings := some 2, difficulty := none }

/-- C10: the current-step index is resolved by string equality against the
stored step text — it is the index of the first step of the phase whose
instruction equals the stored text, defaulting to 0 when the text is unset
(or empty, or matches no step); the remaining-time query sums from that
resolved index; and on a recipe with duplicate instruction texts an
advance from the later duplicate therefore proceeds from the first
occurrence (the session positioned at the duplicate "Chop the carrots" at
index 2 advances to index 1, "Rest the dough", not to index 3). -/
theorem C10_step_index_resolution (r : OptimizedRecipe) (ph : Option String)
    (a : Bool) (t : String) :
    get_current_prep_index ⟨none, ph, a⟩ r = 0 ∧
    ((∀ st ∈ r.prep_phase, st.instruction ≠ t) →
      get_current_prep_index ⟨some t, ph, a⟩ r = 0) ∧
    (∀ i, i < r.prep_phase.length → t ≠ "" →
      (r.prep_phase.getD i default_prep).instruction = t →
      (∀ j, j < i → (r.prep_phase.getD j default_prep).instruction ≠ t) →
      get_current_prep_index ⟨some t, ph, a⟩ r = i) ∧
    (∀ i, i < r.prep_phase.length → t ≠ "" →
      (r.prep_phase.getD i default_prep).instruction = t →
      (∀ j, j < i → (r.prep_phase.getD j default_prep).instruction ≠ t) →
      calculate_remaining_prep_time ⟨some t, ph, a⟩ r =
        ((r.prep_phase.drop i).map (fun st => st.time_estimate.getD 0)).sum) ∧
    (handle_next_step
      ⟨some "Chop the carrots", some "prep", true⟩ duplicateStepRecipe).1.current_step =
      some "Rest the dough" := by
  have hfirst : ∀ i, i < r.prep_phase.length → t ≠ "" →
      (r.prep_phase.getD i default_prep).instruction = t →
      (∀ j, j < i → (r.prep_phase.getD j default_prep).instruction ≠ t) →
      get_current_prep_index ⟨some t, ph, a⟩ r = i := by
    intro i hi ht hm hf
    have hpe : r.prep_phase.isEmpty = false := by
      cases h : r.prep_phase with
      | nil => rw [h] at hi; simp at hi
      | cons _ _ => simp [h]
    unfold get_current_prep_index
    simp only [hpe, Bool.false_eq_true, ite_false, if_neg ht]
    rw [index_of_step_first (·.instruction) t default_prep r.prep_phase i hi hm hf]
    rfl
  refine ⟨rfl, ?_, hfirst, ?_, by decide⟩
  · intro h
    unfold get_current_prep_index
    dsimp only
    by_cases ht : t = ""
    · rw [if_pos ht]
    · rw [if_neg ht]
      by_cases hpe : r.prep_phase.isEmpty
      · rw [if_pos hpe]
      · rw [if_neg hpe,
          index_of_step_none (·.instruction) t r.prep_phase (fun st hs => h st hs)]
        rfl
  · intro i hi ht hm hf
    have hpe : r.prep_phase.isEmpty = false := by
      cases h : r.prep_phase with
      | nil => rw [h] at hi; simp at hi
      | cons _ _ => simp [h]
    unfold calculate_remaining_prep_time
    rw [hpe, hfirst i hi ht hm hf]
    rfl

/-- C10 witness: the resolution theorem applied to the duplicate-step
recipe with the stored text "Chop the carrots": the resolved prep index is
its first occurrence, 0. -/
theorem C10_step_index_resolution_witness :
    get_current_prep_index
      ⟨some "Chop the carrots", some "prep", true⟩ duplicateStepRecipe = 0 :=
  (C10_step_index_resolution duplicateStepRecipe (some "prep") true
      "Chop the carrots").2.2.1 0 (by decide) (by decide) (by decide)
    (fun j hj => absurd hj (by omega))

/-! ## RecipeTransformer (`recipe_modifier.py`) -/

/-- Exact fraction modelling a Python float; `den` is positive in every
use.  Values are kept unreduced; only decimal rendering and integer
truncation consume them.  IEEE-754 arithmetic agrees with this exact model
on all values asserted about below (they have short terminating decimal
expansions). -/
structure Frac where
  num : Int
  den : Int
deriving DecidableEq, Repr

def Frac.mul (a b : Frac) : Frac := ⟨a.num * b.num, a.den * b.den⟩

/-- Python `int(s * f)` — truncation toward zero of the product of an int
`s` and a float `f` — modelled by exact integer arithmetic.  This
coincides with the source (which truncates the IEEE-double product)
whenever the exact product is exactly representable as a double, which
holds at every instance a statement below evaluates it at (e.g.
`3 * 0.5 = 1.5`).  No statement below asserts its value where double
rounding could differ (e.g. `int(49 * (1/49))` is `0` in CPython but `1`
in exact arithmetic). -/
def truncMulInt (s : Int) (f : Frac) : Int := Int.tdiv (s * f.num) f.den

/-- Head matcher for the regex `\d+\.?\d*` used by
`re.findall(r'\d+\.?\d*', ingredient.amount)`: maximal digit run, optional
dot, maximal digit run; yields the exact value of the matched literal. -/
def matchAmount (l : List Char) : Option Frac :=
  let ds := l.takeWhile Char.isDigit
  if ds.isEmpty then none
  else
    match l.drop ds.length with
    | '.' :: rest2 =>
      let fs := rest2.takeWhile Char.isDigit
      some ⟨(digitsToNat ds : Int) * (10 : Int) ^ fs.length + (digitsToNat fs : Int),
        (10 : Int) ^ fs.length⟩
    | _ => some ⟨(digitsToNat ds : Int), 1⟩

/-- `float(re.findall(r'\d+\.?\d*', s)[0])`: the value of the first
numeric token anywhere in the string; `none` models the `IndexError` on a
numberless string, which the source's bare `except` turns into
"pass the ingredient through unchanged". -/
def parse_amount (s : String) : Option Frac := scanFirst matchAmount s.toList

def padZeros (s : String) (k : Nat) : String :=
  if s.length < k then String.mk (List.replicate (k - s.length) '0') ++ s else s

/-- Minimal number of decimal digits needed to write `q` exactly (searched
up to 30, far beyond anything the source produces). -/
def decExp (q : Frac) : Option Nat :=
  (List.range 31).find? (fun k => (q.num * (10 : Int) ^ k) % q.den == 0)

/-- Exact-decimal rendering used to model Python `str(float(..))` at the
concrete values statements below evaluate it at: nonnegative values that
are exactly representable IEEE doubles with a short decimal expansion
(`2 ↦ "2.0"`, `1/2 ↦ "0.5"`, `9/16 ↦ "0.5625"`), where CPython's
shortest round-trip repr is exactly this expansion with a trailing `.0`
for integral values.  Outside that regime (non-terminating expansions
such as `1/3`, literals beyond double precision, magnitudes rendered in
scientific notation) CPython's output differs from this function, and no
statement below asserts its value there. -/
def strFloat (q : Frac) : String :=
  match decExp q with
  | some 0 => toString (Int.tdiv q.num q.den) ++ ".0"
  | some (k + 1) =>
    toString (Int.tdiv (Int.tdiv (q.num * (10 : Int) ^ (k + 1)) q.den) ((10 : Int) ^ (k + 1)))
      ++ "." ++
      padZeros
        (toString (Int.tmod (Int.tdiv (q.num * (10 : Int) ^ (k + 1)) q.den)
          ((10 : Int) ^ (k + 1))).natAbs) (k + 1)
  | none => "unrepresentable"

example : strFloat ⟨2, 1⟩ = "2.0" := by decide
example : strFloat ⟨1, 2⟩ = "0.5" := by decide
example : strFloat ⟨105, 100⟩ = "1.05" := by decide

/-- Amount-field update of one unsubstituted ingredient inside
`_manual_recipe_modification`: the first numeric token is multiplied by
the factor and the whole amount replaced by its `str(float)` rendering; a
`None`, empty or numberless amount is left as is (the `IndexError` of the
failed parse is caught and the ingredient passed through unchanged). -/
def scaleAmountOpt (factor : Frac) : Option String → Option String
  | some a =>
    match parse_amount a with
    | some q => some (strFloat (q.mul factor))
    | none => some a
  | none => none

/-- Scaling of one unsubstituted ingredient inside
`_manual_recipe_modification`: only the `amount` field changes (name,
unit and notes are preserved verbatim). -/
def scaleIngredient (factor : Frac) (ing : Ingredient) : Ingredient :=
  { ing with amount := scaleAmountOpt factor ing.amount }

/-- Last-wins lookup in the dict comprehension
`{sub.original_name: sub for sub in substitutions}` (case-sensitive exact
name match). -/
def sub_lookup (subs : List IngredientSubstitution) (name : String) :
    Option IngredientSubstitution :=
  subs.reverse.find? (fun s => s.original_name == name)

/-- The instruction-rewriting loop
`for sub in substitutions: modified = modified.replace(orig, subst)`
(literal substring replacement, in substitution-list order). -/
def apply_subs_to_text (subs : List IngredientSubstitution) (text : String) :
    String :=
  subs.foldl (fun acc sub => acc.replace sub.original_name sub.substitute_name) text

/-- `RecipeModifier._manual_recipe_modification`: the deterministic
fallback transform.  Substituted ingredients take the substitute's
name/amount/unit with a provenance note; other ingredients are scaled when
a (truthy) factor is given; instructions get literal substring
replacements; servings become `int(servings * factor)`; title gains a
`"Modified "` prefix; time fields and difficulty are copied.  (A `None`
`servings` with a factor would raise in the source; the claims below only
evaluate it with `servings` present, and `Option.map` leaves the absent
case absent.) -/
def manual_recipe_modification (r : OptimizedRecipe)
    (subs : List IngredientSubstitution) (factor : Option Frac) :
    OptimizedRecipe :=
  { title := "Modified " ++ r.title
  , ingredients := r.ingredients.map (fun ing =>
      match sub_lookup subs ing.name with
      | some sub =>
        { name := sub.substitute_name, amount := some sub.substitute_amount
        , unit := some sub.substitute_unit
        , notes := some ("Substituted for " ++ ing.name) }
      | none =>
        match factor with
        | some f => if f.num = 0 then ing else scaleIngredient f ing
        | none => ing)
  , prep_phase := r.prep_phase.map (fun st =>
      { st with instruction := apply_subs_to_text subs st.instruction })
  , cook_phase := r.cook_phase.map (fun st =>
      { st with instruction := apply_subs_to_text subs st.instruction })
  , total_time := r.total_time
  , prep_time := r.prep_time
  , cook_time := r.cook_time
  , servings :=
      match factor with
      | some f =>
        if f.num = 0 then r.servings else r.servings.map (fun s => truncMulInt s f)
      | none => r.servings
  , difficulty := r.difficulty }

/-- Outcome of `RecipeModifier.modify_recipe`.  (`modification_notes`, a
display-only string, is not modelled; no claim mentions it.) -/
structure RecipeModificationResponse where
  modified_recipe : OptimizedRecipe
  substitutions_made : List IngredientSubstitution
  scaling_factor : Option Frac
  original_servings : Int
  new_servings : Int
deriving DecidableEq, Repr

/-- Python `x or d` for an optional int (`None` and `0` are falsy). -/
def pyOrInt (o : Option Int) (d : Int) : Int :=
  match o with
  | some v => if v ≠ 0 then v else d
  | none => d

/-- `RecipeModifier.modify_recipe`, parameterised by the observable
outcome of its two LLM calls when those calls *return*: `llmSubs` is the
substitution list after `_find_substitutions_openai` (whose `try` covers
only the `json.loads`/parse of the response, turning an unparseable
response into `[]`), and `llmRewrite` is `some` parsed recipe when the
rewriting call succeeds and `none` when `_generate_modified_recipe` falls
back to `_manual_recipe_modification` (its `try` likewise covers only the
parse).  A *raising* `llm.invoke` — or the prompt construction raising,
see `adjust_recipe_for_dietary_needs` — escapes `modify_recipe` itself;
the dietary and exact-phrase-scale handlers catch that in their own
`try/except`, and no statement below depends on their exception path.
The scaling factor `target_servings / recipe.servings` exists only when
both are truthy. -/
def modify_recipe (llmSubs : List IngredientSubstitution)
    (llmRewrite : Option OptimizedRecipe) (recipe : OptimizedRecipe)
    (target_servings : Option Int) : RecipeModificationResponse :=
  let scaling_factor : Option Frac :=
    match target_servings, recipe.servings with
    | some t, some s => if t ≠ 0 ∧ s ≠ 0 then some ⟨t, s⟩ else none
    | _, _ => none
  { modified_recipe :=
      match llmRewrite with
      | some m => m
      | none => manual_recipe_modification recipe llmSubs scaling_factor
  , substitutions_made := llmSubs
  , scaling_factor := scaling_factor
  , original_servings := pyOrInt recipe.servings 1
  , new_servings := pyOrInt target_servings (pyOrInt recipe.servings 1) }

/-- A Python exception escaping to the caller. -/
inductive PyErr where
  | typeError (msg : String)
deriving DecidableEq, Repr

/-- Computations that may raise. -/
abbrev Py (α : Type) := Except PyErr α

/-- Ingredient dict of `adjust_recipe_for_dietary_needs`'s
`adjusted_ingredients` list. -/
structure AdjustedIngredient where
  name : String
  amount : Option String
  unit : Option String
  substitution_note : Option String
deriving DecidableEq, Repr

/-- `RecipeModifier.adjust_recipe_for_dietary_needs` (legacy wrapper):
builds `modification_request` with
`dietary_preferences = [dietary_preference]` and calls `modify_recipe`.
`_find_substitutions_openai` constructs its prompt *before* any `try`,
and `_create_substitution_prompt` runs
`", ".join(dietary_preferences)` on the truthy list: with
`dietary_preference = None` — which is how the only live caller,
`_handle_serving_adjustment`, invokes this wrapper — `", ".join([None])`
raises `TypeError`, which escapes the wrapper uncaught.  With a string
preference the prompt builds and the wrapper repackages the modification
result with `serving_size = result.new_servings` (that success path
additionally requires the LLM calls to return; a raising `llm.invoke`
would also escape, and no statement below depends on this wrapper's
success path). -/
def adjust_recipe_for_dietary_needs (dietary_preference : Option String)
    (llmSubs : List IngredientSubstitution)
    (llmRewrite : Option OptimizedRecipe) (recipe : OptimizedRecipe)
    (servings : Option Int) : Py (List AdjustedIngredient × Int) :=
  match dietary_preference with
  | none =>
    .error (.typeError "sequence item 0: expected str instance, NoneType found")
  | some _pref =>
    let result := modify_recipe llmSubs llmRewrite recipe servings
    .ok (result.modified_recipe.ingredients.map
        (fun ing => ⟨ing.name, ing.amount, ing.unit, ing.notes⟩),
      result.new_servings)

/-- `VoiceCookingAssistant.apply_adjusted_recipe`: mutates the given
recipe in place — every ingredient whose lowercased name equals an
adjusted ingredient's lowercased name takes that entry's amount and unit,
and `servings` is overwritten when `'serving_size'` is present in the
adjusted data (when it is absent the function falls off its body and
returns `None`, modelled by the `Option`).  The returned recipe is the
same (mutated) object the session holds.  At runtime this function is
unreachable from the serving-adjustment path: its only caller there,
`_handle_serving_adjustment`, raises inside
`adjust_recipe_for_dietary_needs` first (see there); it is modelled for
completeness and no claim relies on it. -/
def apply_adjusted_recipe (recipe : OptimizedRecipe)
    (adjusted : List AdjustedIngredient) (serving_size : Option Int) :
    Option OptimizedRecipe :=
  let ings := adjusted.foldl
    (fun acc adj => acc.map (fun ing =>
      if pyLower ing.name = pyLower adj.name then
        { ing with amount := adj.amount, unit := adj.unit }
      else ing))
    recipe.ingredients
  match serving_size with
  | some n => some { recipe with ingredients := ings, servings := some n }
  | none => none

/-! ## CookingOrchestrator (`voice_assistant.py` command processing) -/

/-- `_enhance_step_with_timer_info(session.current_step)` reduced to its
observable content (the detected minutes): calling it with `None` reaches
`re.search(pattern, None)` which raises `TypeError`. -/
def enhance_timer (s : Option String) : Py (Option Nat) :=
  match s with
  | some str => Except.ok (detect_timer_in_instruction str)
  | none => throw (.typeError "expected string or bytes-like object")

/-- What a handler returns / leaves behind: the `response` text of the
returned dict, the (possibly mutated) session and recipe objects, the
recipes persisted as new database rows, and the dict's `success` flag
when the handler sets one. -/
structure CommandOutcome where
  response : String
  session : CookingSession
  recipe : OptimizedRecipe
  saved : List OptimizedRecipe
  success : Option Bool
deriving DecidableEq, Repr

def outcome0 (resp : String) (s : CookingSession) (r : OptimizedRecipe) :
    CommandOutcome :=
  { response := resp, session := s, recipe := r, saved := [], success := none }

/-- `_save_modified_recipe`: the new row stores the recipe with title
`f"{title} ({modification_type.title()})"`; returns the saved recipe. -/
def save_modified_recipe (m : OptimizedRecipe) (modification_type : String) :
    OptimizedRecipe :=
  { m with title := m.title ++ " (" ++ pyTitleCase modification_type ++ ")" }

/-- Common body of the four `_handle_make_*` dietary handlers: modify with
`target_servings = recipe.servings`, save the result as a new recipe, and
answer with the handler-specific message.  Neither the session nor the
session's recipe object is touched. -/
def dietary_core (kind : String) (respText : String)
    (llmSubs : List IngredientSubstitution) (llmRewrite : Option OptimizedRecipe)
    (session : CookingSession) (recipe : OptimizedRecipe) : CommandOutcome :=
  { response := respText
  , session := session
  , recipe := recipe
  , saved := [save_modified_recipe
      (modify_recipe llmSubs llmRewrite recipe recipe.servings).modified_recipe kind]
  , success := some true }

def handle_make_vegetarian (_newId : Int) (llmSubs : List IngredientSubstitution)
    (llmRewrite : Option OptimizedRecipe) (session : CookingSession)
    (recipe : OptimizedRecipe) : CommandOutcome :=
  dietary_core "vegetarian"
    ("I've created a vegetarian version of " ++ recipe.title ++
      ". The new recipe has been saved.")
    llmSubs llmRewrite session recipe

def handle_make_vegan (newId : Int) (llmSubs : List IngredientSubstitution)
    (llmRewrite : Option OptimizedRecipe) (session : CookingSession)
    (recipe : OptimizedRecipe) : CommandOutcome :=
  dietary_core "vegan"
    ("I've created a vegan version of " ++ recipe.title ++
      ". The new recipe has been saved with ID " ++ toString newId ++ ".")
    llmSubs llmRewrite session recipe

def handle_make_gluten_free (newId : Int) (llmSubs : List IngredientSubstitution)
    (llmRewrite : Option OptimizedRecipe) (session : CookingSession)
    (recipe : OptimizedRecipe) : CommandOutcome :=
  dietary_core "gluten-free"
    ("I've created a gluten-free version of " ++ recipe.title ++
      ". The new recipe has been saved with ID " ++ toString newId ++ ".")
    llmSubs llmRewrite session recipe

def handle_make_dairy_free (newId : Int) (llmSubs : List IngredientSubstitution)
    (llmRewrite : Option OptimizedRecipe) (session : CookingSession)
    (recipe : OptimizedRecipe) : CommandOutcome :=
  dietary_core "dairy-free"
    ("I've created a dairy-free version of " ++ recipe.title ++
      ". The new recipe has been saved with ID " ++ toString newId ++ ".")
    llmSubs llmRewrite session recipe

/-- `_handle_scale_recipe` (the exact-phrase scale/double/half handler):
computes `int(servings * factor)` (or `int(4 * factor)` when servings is
falsy), modifies, and saves the result as a new recipe; the session's
recipe object is not touched. -/
def handle_scale_recipe (newId : Int) (llmSubs : List IngredientSubstitution)
    (llmRewrite : Option OptimizedRecipe) (session : CookingSession)
    (recipe : OptimizedRecipe) (factor : Frac) : CommandOutcome :=
  let new_servings : Int :=
    match recipe.servings with
    | some s => if s ≠ 0 then truncMulInt s factor else truncMulInt 4 factor
    | none => truncMulInt 4 factor
  { response := "I've scaled the recipe to " ++ toString new_servings ++
      " servings. The new recipe has been saved with ID " ++ toString newId ++ "."
  , session := session
  , recipe := recipe
  , saved := [save_modified_recipe
      (modify_recipe llmSubs llmRewrite recipe (some new_servings)).modified_recipe
      ("scaled_" ++ strFloat factor ++ "x")]
  , success := some true }

/-- Regex `(\d+)\s*(?:serving|people|person|servings)` of
`_handle_serving_adjustment` (the `servings` alternative is subsumed by
the `serving` prefix): head-anchored digit run, optional whitespace, one
of the three literals. -/
def matchServingNum (l : List Char) : Option Nat :=
  let ds := l.takeWhile Char.isDigit
  if ds.isEmpty then none
  else
    if isPrefixCI "serving".toList ((l.drop ds.length).dropWhile isWs) ||
        isPrefixCI "people".toList ((l.drop ds.length).dropWhile isWs) ||
        isPrefixCI "person".toList ((l.drop ds.length).dropWhile isWs) then
      some (digitsToNat ds)
    else none

def serving_match (cl : String) : Option Nat := scanFirst matchServingNum cl.toList

/-- Target-count derivation of `_handle_serving_adjustment` (its
`new_servings` local): the explicit number+unit match, else
`recipe.servings * 2` for "double", else `max(1, recipe.servings // 2)`
for "half" — the latter two raise `TypeError` when `recipe.servings` is
`None` — else `None`. -/
def serving_target (cl : String) (servings : Option Int) : Py (Option Int) :=
  match serving_match cl with
  | some n => .ok (some (n : Int))
  | none =>
    if pyContains cl "double" then
      match servings with
      | some s => .ok (some (s * 2))
      | none => .error (.typeError "unsupported operand type")
    else if pyContains cl "half" then
      match servings with
      | some s => .ok (some (max 1 (Int.fdiv s 2)))
      | none => .error (.typeError "unsupported operand type")
    else .ok none

/-- `VoiceCookingAssistant._handle_serving_adjustment`: derives the target
count (see `serving_target`).  A falsy target (`None` or `0`) fails the
`if new_servings:` test and yields the failure response, leaving the
recipe untouched.  A truthy target calls
`adjust_recipe_for_dietary_needs(recipe, None, new_servings)`, whose
prompt construction runs `", ".join([None])` before any `try` and raises
an uncaught `TypeError` (see `adjust_recipe_for_dietary_needs`); the
subsequent `apply_adjusted_recipe` call and success response are
unreachable, so this handler never scales, never mutates the recipe, and
never saves anything. -/
def handle_serving_adjustment (llmSubs : List IngredientSubstitution)
    (llmRewrite : Option OptimizedRecipe) (cmd : String)
    (recipe : OptimizedRecipe) (session : CookingSession) : Py CommandOutcome :=
  match serving_target (pyLower cmd) recipe.servings with
  | .error e => .error e
  | .ok new_servings =>
    match new_servings with
    | some n =>
      if n ≠ 0 then
        match adjust_recipe_for_dietary_needs none llmSubs llmRewrite recipe
            (some n) with
        | .error e => .error e
        | .ok _adjusted => .ok (outcome0 "" session recipe)
      else
        .ok { response := "I couldn't determine how to adjust the serving size. Please specify a number of servings or say 'double' or 'half'."
            , session := session, recipe := recipe, saved := []
            , success := some false }
    | none =>
      .ok { response := "I couldn't determine how to adjust the serving size. Please specify a number of servings or say 'double' or 'half'."
          , session := session, recipe := recipe, saved := []
          , success := some false }

/-! ## Command routing (`process_voice_command`) -/

/-- Lazy-capture tail of the regex `remove (.+?)(?: from|$)`: having
captured at least one character, capture greedily-minimally until the
first position where `" from"` begins, or to the end of the string. -/
def capture_tail : List Char → List Char
  | [] => []
  | c :: rest =>
    if " from".toList.isPrefixOf (c :: rest) then [] else c :: capture_tail rest

/-- Head matcher of `remove (.+?)(?: from|$)`: the literal `"remove "`,
then a nonempty lazy capture terminated by `" from"` or end of string. -/
def matchRemove (l : List Char) : Option (List Char) :=
  if "remove ".toList.isPrefixOf l then
    match l.drop 7 with
    | [] => none
    | c :: rest => some (c :: capture_tail rest)
  else none

/-- `re.search(r'remove (.+?)(?: from|$)', command_lower)` followed by
`.group(1).strip()`. -/
def remove_match (cl : String) : Option String :=
  (scanFirst matchRemove cl.toList).map (fun cs => pyStrip (String.mk cs))

example : remove_match "remove garlic from the sauce" = some "garlic" := by decide
example : remove_match "timer info" = none := by decide

def dietary_keywords : List String := ["vegan", "vegetarian", "gluten-free", "dairy-free"]

def serving_keywords : List String := ["adjust", "change", "scale", "serving", "double", "half"]

/-- The inner `if/elif` chain of the dietary branch in
`process_voice_command` (the spaced variants are only recognised here,
inside a branch already guarded by the hyphenated keyword list). -/
def inner_dietary (cl : String) : Option String :=
  if pyContains cl "vegan" then some "vegan"
  else if pyContains cl "vegetarian" then some "vegetarian"
  else if pyContains cl "gluten-free" || pyContains cl "gluten free" then
    some "gluten-free"
  else if pyContains cl "dairy-free" || pyContains cl "dairy free" then
    some "dairy-free"
  else none

/-- Which top-level branch of `process_voice_command` a command takes. -/
inductive Route where
  | removal (name : String)
  | dietary (kind : String)
  | dietaryFallthrough
  | serving
  | fallback
deriving DecidableEq, Repr

/-- The top-level `if/elif` routing of `process_voice_command` on
`command_lower = command.lower().strip()`: ingredient-removal regex first,
then the dietary keyword list (hyphenated forms only), then the
serving/scale keyword list, else the legacy exact-phrase dispatcher.
`dietaryFallthrough` marks the (unreachable — the guard keyword always
matches one of the inner tests) case where the dietary branch would fall
out of its inner chain and the Python function would return `None`. -/
def classify_route (cmd : String) : Route :=
  let cl := pyStrip (pyLower cmd)
  match remove_match cl with
  | some name => .removal name
  | none =>
    if dietary_keywords.any (fun k => pyContains cl k) then
      match inner_dietary cl with
      | some kind => .dietary kind
      | none => .dietaryFallthrough
    else if serving_keywords.any (fun k => pyContains cl k) then .serving
    else .fallback

/-- `_handle_repeat_step` response (an empty stored step is falsy). -/
def repeat_text (session : CookingSession) : String :=
  match session.current_step with
  | some t => if t ≠ "" then "Repeating: " ++ t else "No current step to repeat."
  | none => "No current step to repeat."

/-- `_handle_prep_query` response. -/
def prep_query_text (r : OptimizedRecipe) : String :=
  "Prep phase includes: " ++
    String.intercalate "; " (r.prep_phase.map (·.instruction))

/-- `_handle_time_query` response (any phase other than `'prep'`,
including `None`, reports cooking time). -/
def time_query_text (session : CookingSession) (r : OptimizedRecipe) : String :=
  if session.current_phase = some "prep" then
    "Prep phase: " ++ toString (calculate_remaining_prep_time session r) ++
      " minutes remaining"
  else
    "Cooking phase: " ++ toString (calculate_remaining_cook_time session r) ++
      " minutes remaining"

/-- `_handle_ingredients_query` response
(`f"{ing.amount} {ing.unit} {ing.name}"`; `None` fields print as
`"None"`). -/
def ingredients_query_text (r : OptimizedRecipe) : String :=
  "Ingredients needed: " ++
    String.intercalate "; " (r.ingredients.map (fun ing =>
      pyReprOpt ing.amount ++ " " ++ pyReprOpt ing.unit ++ " " ++ ing.name))

/-- `_handle_timer_info` (raises when the stored current step is
`None`). -/
def handle_timer_info (session : CookingSession) (r : OptimizedRecipe) :
    Py CommandOutcome :=
  match enhance_timer session.current_step with
  | .error e => .error e
  | .ok t =>
    .ok (outcome0
      (match t with
       | some m => timer_message m
       | none => "The current step doesn't require a timer. If you need to time something manually, you can use your own timer or ask me to help with timing.")
      session r)

/-- `_handle_start_timer` (raises when the stored current step is
`None`). -/
def handle_start_timer (session : CookingSession) (r : OptimizedRecipe) :
    Py CommandOutcome :=
  match enhance_timer session.current_step with
  | .error e => .error e
  | .ok t =>
    .ok (outcome0
      (match t with
       | some m => "Starting timer for " ++ toString m ++ " minute" ++
           (if m ≠ 1 then "s" else "") ++ ". The timer is now running on your screen."
       | none => "The current step doesn't have a timer requirement. You can start the timer manually from the timer component.")
      session r)

/-- `_handle_unknown_command` response. -/
def unknown_command_text (c : String) : String :=
  "I didn't understand '" ++ c ++ "'. Try saying 'next', 'repeat', 'what prep', 'pause', 'resume', 'start timer', 'pause timer', 'resume timer', or 'timer info'."

/-- The legacy exact-phrase dispatcher `_process_voice_command`
(lowercases and strips its argument again, then matches fixed phrase
lexicons in source order). -/
def fallback_dispatch (newId : Int) (llmSubs : List IngredientSubstitution)
    (llmRewrite : Option OptimizedRecipe) (cmd : String)
    (session : CookingSession) (recipe : OptimizedRecipe) : Py CommandOutcome :=
  let c := pyStrip (pyLower cmd)
  if c ∈ ["next", "next step", "continue"] then
    Except.ok (outcome0 (handle_next_step session recipe).2
      (handle_next_step session recipe).1 recipe)
  else if c ∈ ["repeat", "say again", "repeat step"] then
    Except.ok (outcome0 (repeat_text session) session recipe)
  else if c ∈ ["what prep", "prep", "preparation"] then
    Except.ok (outcome0 (prep_query_text recipe) session recipe)
  else if c ∈ ["pause", "stop"] then
    Except.ok (outcome0 (handle_pause session).2 (handle_pause session).1 recipe)
  else if c ∈ ["resume", "continue cooking"] then
    Except.ok (outcome0 (handle_resume session).2 (handle_resume session).1 recipe)
  else if c ∈ ["time", "how long", "time left"] then
    Except.ok (outcome0 (time_query_text session recipe) session recipe)
  else if c ∈ ["timer info", "timer help"] then
    handle_timer_info session recipe
  else if c ∈ ["start timer", "begin timer"] then
    handle_start_timer session recipe
  else if c ∈ ["pause timer", "stop timer"] then
    Except.ok (outcome0 "Timer paused. Say 'resume timer' to continue." session recipe)
  else if c ∈ ["resume timer", "restart timer", "continue timer"] then
    Except.ok (outcome0 "Timer resumed. You can control the timer manually from the screen."
      session recipe)
  else if c ∈ ["ingredients", "what ingredients"] then
    Except.ok (outcome0 (ingredients_query_text recipe) session recipe)
  else if c ∈ ["make vegetarian", "vegetarian version", "make it vegetarian", "vegetarian"] then
    Except.ok (handle_make_vegetarian newId llmSubs llmRewrite session recipe)
  else if c ∈ ["make vegan", "vegan version", "make it vegan", "vegan"] then
    Except.ok (handle_make_vegan newId llmSubs llmRewrite session recipe)
  else if c ∈ ["make gluten free", "gluten free version", "make it gluten free", "gluten free", "gluten-free"] then
    Except.ok (handle_make_gluten_free newId llmSubs llmRewrite session recipe)
  else if c ∈ ["make dairy free", "dairy free version", "make it dairy free", "dairy free", "dairy-free"] then
    Except.ok (handle_make_dairy_free newId llmSubs llmRewrite session recipe)
  else if c ∈ ["scale up", "double recipe", "make more"] then
    Except.ok (handle_scale_recipe newId llmSubs llmRewrite session recipe ⟨2, 1⟩)
  else if c ∈ ["scale down", "half recipe", "make less"] then
    Except.ok (handle_scale_recipe newId llmSubs llmRewrite session recipe ⟨1, 2⟩)
  else if c ∈ ["substitute", "replace ingredient", "swap ingredient"] then
    Except.ok
      { response := "To substitute ingredients, please specify which ingredient you'd like to replace and what you'd like to use instead. For example: 'replace chicken with tofu'."
      , session := session, recipe := recipe, saved := [], success := some false }
  else
    Except.ok
      { response := unknown_command_text c
      , session := session, recipe := recipe, saved := [], success := none }

/-- `VoiceCookingAssistant.process_voice_command`: the inbound command
surface.  `llmRemoval` is the outcome of the **unguarded** `llm.invoke`
call of `_handle_ingredient_removal` (its content string, or the
exception it raises); `llmSubs` / `llmRewrite` describe the guarded LLM
calls inside `modify_recipe` (see there); `newId` is the database id
assigned to a newly saved recipe. -/
def process_voice_command (llmRemoval : Py String) (newId : Int)
    (llmSubs : List IngredientSubstitution) (llmRewrite : Option OptimizedRecipe)
    (cmd : String) (session : CookingSession) (recipe : OptimizedRecipe) :
    Py CommandOutcome :=
  match classify_route cmd with
  | .removal _name =>
    match llmRemoval with
    | .ok content => .ok (outcome0 content session recipe)
    | .error e => .error e
  | .dietary kind =>
    if kind = "vegan" then
      Except.ok (handle_make_vegan newId llmSubs llmRewrite session recipe)
    else if kind = "vegetarian" then
      Except.ok (handle_make_vegetarian newId llmSubs llmRewrite session recipe)
    else if kind = "gluten-free" then
      Except.ok (handle_make_gluten_free newId llmSubs llmRewrite session recipe)
    else
      Except.ok (handle_make_dairy_free newId llmSubs llmRewrite session recipe)
  | .dietaryFallthrough =>
    Except.ok (outcome0 "" session recipe)
  | .serving =>
    handle_serving_adjustment llmSubs llmRewrite cmd recipe session
  | .fallback =>
    fallback_dispatch newId llmSubs llmRewrite cmd session recipe

/-! ## Claim C3 -/

theorem apply_subs_to_text_nil (t : String) : apply_subs_to_text [] t = t := rfl

theorem map_prep_subs_nil (l : List PrepStep) :
    l.map (fun st => { st with instruction := apply_subs_to_text [] st.instruction }) =
      l := by
  have h : (fun st : PrepStep =>
      ({ st with instruction := apply_subs_to_text [] st.instruction } : PrepStep)) = id :=
    funext fun st => rfl
  rw [h, List.map_id]

theorem map_cook_subs_nil (l : List CookStep) :
    l.map (fun st => { st with instruction := apply_subs_to_text [] st.instruction }) =
      l := by
  have h : (fun st : CookStep =>
      ({ st with instruction := apply_subs_to_text [] st.instruction } : CookStep)) = id :=
    funext fun st => rfl
  rw [h, List.map_id]

theorem scaleIngredient_fields (f : Frac) (ing : Ingredient) :
    (scaleIngredient f ing).name = ing.name ∧
    (scaleIngredient f ing).unit = ing.unit ∧
    (scaleIngredient f ing).notes = ing.notes :=
  ⟨rfl, rfl, rfl⟩

/-- Recipe used to refute the identity claims of C3. -/
def rPasta : OptimizedRecipe :=
  { title := "Pasta"
  , ingredients := [⟨"flour", some "2", some "cups", none⟩]
  , prep_phase := [⟨"Mix the flour", some 2, none⟩]
  , cook_phase := []
  , total_time := some 10, prep_time := some 5, cook_time := some 5
  , servings := some 4, difficulty := some "easy" }

/-- C3, counterexample.  The claim says scaling by 1.0 and applying an
empty substitution list are each the identity (on title and ingredient
amount strings among other fields).  On the deterministic transform both
fail at this recipe: the title is unconditionally prefixed with
`"Modified "`, and with factor 1.0 the amount `"2"` is re-rendered as
`str(2.0) = "2.0"`. -/
theorem C3_counterexample :
    manual_recipe_modification rPasta [] (some ⟨1, 1⟩) ≠ rPasta ∧
    (manual_recipe_modification rPasta [] (some ⟨1, 1⟩)).title = "Modified Pasta" ∧
    ((manual_recipe_modification rPasta [] (some ⟨1, 1⟩)).ingredients.map (·.amount)) =
      [some "2.0"] ∧
    manual_recipe_modification rPasta [] none ≠ rPasta := by
  refine ⟨by decide, by decide, by decide, by decide⟩

/-- C3 (amended): with no substitutions and no scaling factor the
deterministic transform equals its input except for the `"Modified "`
title prefix; with scaling factor exactly 1.0 it moreover preserves
servings, both step lists, all time fields, difficulty, and every
ingredient's name, unit and notes (only amount strings may change: the
counterexample exhibits `"2" ↦ "2.0"` at this factor, and the title is
again prefixed).  Both transforms are pure — they build a new recipe and
never mutate the input (by construction in this embedding, matching the
source, which only constructs new objects here). -/
theorem C3_near_identity (r : OptimizedRecipe) :
    manual_recipe_modification r [] none =
      { r with title := "Modified " ++ r.title } ∧
    (manual_recipe_modification r [] (some ⟨1, 1⟩)).servings = r.servings ∧
    (manual_recipe_modification r [] (some ⟨1, 1⟩)).prep_phase = r.prep_phase ∧
    (manual_recipe_modification r [] (some ⟨1, 1⟩)).cook_phase = r.cook_phase ∧
    (manual_recipe_modification r [] (some ⟨1, 1⟩)).total_time = r.total_time ∧
    (manual_recipe_modification r [] (some ⟨1, 1⟩)).prep_time = r.prep_time ∧
    (manual_recipe_modification r [] (some ⟨1, 1⟩)).cook_time = r.cook_time ∧
    (manual_recipe_modification r [] (some ⟨1, 1⟩)).difficulty = r.difficulty ∧
    ((manual_recipe_modification r [] (some ⟨1, 1⟩)).ingredients.map (·.name) =
      r.ingredients.map (·.name)) ∧
    ((manual_recipe_modification r [] (some ⟨1, 1⟩)).ingredients.map (·.unit) =
      r.ingredients.map (·.unit)) ∧
    ((manual_recipe_modification r [] (some ⟨1, 1⟩)).ingredients.map (·.notes) =
      r.ingredients.map (·.notes)) := by
  have hingid : (fun ing : Ingredient =>
      (match sub_lookup [] ing.name with
       | some sub =>
         ({ name := sub.substitute_name, amount := some sub.substitute_amount
          , unit := some sub.substitute_unit
          , notes := some ("Substituted for " ++ ing.name) } : Ingredient)
       | none =>
         match (none : Option Frac) with
         | some f => if f.num = 0 then ing else scaleIngredient f ing
         | none => ing)) = id := funext fun ing => rfl
  have hingscale : (fun ing : Ingredient =>
      (match sub_lookup [] ing.name with
       | some sub =>
         ({ name := sub.substitute_name, amount := some sub.substitute_amount
          , unit := some sub.substitute_unit
          , notes := some ("Substituted for " ++ ing.name) } : Ingredient)
       | none =>
         match (some ⟨1, 1⟩ : Option Frac) with
         | some f => if f.num = 0 then ing else scaleIngredient f ing
         | none => ing)) = scaleIngredient ⟨1, 1⟩ := by
    funext ing
    show (if (1 : Int) = 0 then ing else scaleIngredient ⟨1, 1⟩ ing) =
      scaleIngredient ⟨1, 1⟩ ing
    rw [if_neg (by decide)]
  have hserv : r.servings.map (fun s => truncMulInt s ⟨1, 1⟩) = r.servings := by
    have h : (fun s : Int => truncMulInt s ⟨1, 1⟩) = id := by
      funext s
      show Int.tdiv (s * 1) 1 = s
      rw [mul_one, Int.tdiv_one]
    rw [h, Option.map_id]
    rfl
  have hmain : manual_recipe_modification r [] none =
      { r with title := "Modified " ++ r.title } := by
    unfold manual_recipe_modification
    rw [hingid, List.map_id, map_prep_subs_nil, map_cook_subs_nil]
  have hing : (manual_recipe_modification r [] (some ⟨1, 1⟩)).ingredients =
      r.ingredients.map (scaleIngredient ⟨1, 1⟩) := by
    unfold manual_recipe_modification
    rw [hingscale]
  have hfield : ∀ g : Ingredient → Option String,
      (∀ f ing, g (scaleIngredient f ing) = g ing) →
      (manual_recipe_modification r [] (some ⟨1, 1⟩)).ingredients.map g =
        r.ingredients.map g := by
    intro g hg
    rw [hing, List.map_map]
    exact List.map_congr_left fun ing _ => hg ⟨1, 1⟩ ing
  refine ⟨hmain, ?_, ?_, ?_, rfl, rfl, rfl, rfl, ?_, ?_, ?_⟩
  · show (if (1 : Int) = 0 then r.servings
      else r.servings.map (fun s => truncMulInt s ⟨1, 1⟩)) = r.servings
    rw [if_neg (by decide), hserv]
  · exact map_prep_subs_nil r.prep_phase
  · exact map_cook_subs_nil r.cook_phase
  · rw [hing, List.map_map]
    refine List.map_congr_left fun ing _ => (scaleIngredient_fields ⟨1, 1⟩ ing).1
  · rw [hing, List.map_map]
    refine List.map_congr_left fun ing _ => (scaleIngredient_fields ⟨1, 1⟩ ing).2.1
  · rw [hing, List.map_map]
    refine List.map_congr_left fun ing _ => (scaleIngredient_fields ⟨1, 1⟩ ing).2.2

/-! ## Claim C4 -/

/-- Recipe with 3 servings, used to refute `round` / illustrate
truncation. -/
def rScaleThree : OptimizedRecipe :=
  { title := "Stew", ingredients := [⟨"beans", some "1", some "cup", none⟩]
  , prep_phase := [⟨"Soak the beans", some 2, none⟩], cook_phase := []
  , total_time := some 30, prep_time := some 10, cook_time := some 20
  , servings := some 3, difficulty := none }

/-- Recipe whose amounts exercise the exactly-representable scaling cases:
a dyadic decimal, an unparseable amount, and a non-leading numeric
token. -/
def rScaleDemo : OptimizedRecipe :=
  { title := "Bake"
  , ingredients :=
      [⟨"butter", some "1.125", some "cups", none⟩,
       ⟨"salt", some "to taste", none, none⟩,
       ⟨"sugar", some "approx. 2", some "tbsp", none⟩]
  , prep_phase := [⟨"Soften the butter", some 5, none⟩], cook_phase := []
  , total_time := some 30, prep_time := some 10, cook_time := some 20
  , servings := some 3, difficulty := none }

/-- C4, counterexample.  The claim says the new servings are
`round(originalServings × factor)` with a minimum of 1, amounts are
rounded to 2 decimal places, and only a leading number is scaled.  At
inputs where CPython's float arithmetic is exact, the code disagrees on
all three: `int(servings * factor)` truncates toward zero with no minimum
(servings 3 at factor 0.5 give 1 where `round(1.5) = 2`; servings 1 at
factor 0.5 give 0); the amount is replaced by the full `str(float)`
rendering (`"1.125"` at factor 0.5 becomes `str(0.5625) = "0.5625"`, four
decimal places — 1.125 and 0.5625 are exact dyadic doubles); and the
first numeric token is scaled wherever it occurs (`"approx. 2"` at factor
0.5 becomes `"1.0"`, losing the surrounding text). -/
theorem C4_counterexample :
    (manual_recipe_modification rScaleThree [] (some ⟨1, 2⟩)).servings = some 1 ∧
    max 1 (round ((3 : ℚ) * (1 / 2 : ℚ))) = (2 : ℤ) ∧
    (manual_recipe_modification { rScaleThree with servings := some 1 } []
      (some ⟨1, 2⟩)).servings = some 0 ∧
    scaleAmountOpt ⟨1, 2⟩ (some "1.125") = some "0.5625" ∧
    scaleAmountOpt ⟨1, 2⟩ (some "approx. 2") = some "1.0" ∧
    ((manual_recipe_modification rScaleDemo [] (some ⟨1, 2⟩)).ingredients.map
      (fun i => i.amount)) = [some "0.5625", some "to taste", some "1.0"] ∧
    (manual_recipe_modification rScaleDemo [] (some ⟨1, 2⟩)).servings = some 1 := by
  refine ⟨by decide, ?_, by decide, by decide, by decide, by decide, by decide⟩
  norm_num [round_eq]

/-- C4 (amended): for every nonzero scaling factor the deterministic
transform copies the total/prep/cook time fields unscaled and preserves
every ingredient's name, unit and notes verbatim; an ingredient without a
parseable numeric token in its amount, or with no amount at all, passes
through unchanged.  The positive scaling behaviour — first numeric token
anywhere in the string multiplied by the factor and the amount replaced
by its full `str(float)` rendering, and new servings
`int(originalServings × factor)` (truncation toward zero, no minimum) —
is certified at exactly-representable float instances in the
counterexample, since outside that regime the source's IEEE arithmetic is
not captured by this rational model. -/
theorem C4_scale_behavior (r : OptimizedRecipe) (f : Frac) (hf : f.num ≠ 0) :
    (manual_recipe_modification r [] (some f)).total_time = r.total_time ∧
    (manual_recipe_modification r [] (some f)).prep_time = r.prep_time ∧
    (manual_recipe_modification r [] (some f)).cook_time = r.cook_time ∧
    ((manual_recipe_modification r [] (some f)).ingredients.map (·.name) =
      r.ingredients.map (·.name)) ∧
    ((manual_recipe_modification r [] (some f)).ingredients.map (·.unit) =
      r.ingredients.map (·.unit)) ∧
    ((manual_recipe_modification r [] (some f)).ingredients.map (·.notes) =
      r.ingredients.map (·.notes)) ∧
    (∀ a, parse_amount a = none → scaleAmountOpt f (some a) = some a) ∧
    scaleAmountOpt f none = none := by
  have hing : (manual_recipe_modification r [] (some f)).ingredients =
      r.ingredients.map (scaleIngredient f) := by
    unfold manual_recipe_modification
    have h : (fun ing : Ingredient =>
        (match sub_lookup [] ing.name with
         | some sub =>
           ({ name := sub.substitute_name, amount := some sub.substitute_amount
            , unit := some sub.substitute_unit
            , notes := some ("Substituted for " ++ ing.name) } : Ingredient)
         | none =>
           match (some f : Option Frac) with
           | some f2 => if f2.num = 0 then ing else scaleIngredient f2 ing
           | none => ing)) = scaleIngredient f := by
      funext ing
      show (if f.num = 0 then ing else scaleIngredient f ing) = scaleIngredient f ing
      rw [if_neg hf]
    rw [h]
  refine ⟨rfl, rfl, rfl, ?_, ?_, ?_, ?_, rfl⟩
  · rw [hing, List.map_map]
    exact List.map_congr_left fun ing _ => (scaleIngredient_fields f ing).1
  · rw [hing, List.map_map]
    exact List.map_congr_left fun ing _ => (scaleIngredient_fields f ing).2.1
  · rw [hing, List.map_map]
    exact List.map_congr_left fun ing _ => (scaleIngredient_fields f ing).2.2
  · intro a ha
    show (match parse_amount a with
      | some q => some (strFloat (q.mul f))
      | none => some a) = some a
    rw [ha]

/-- C4 witness: the amended theorem applied at factor 1/2 to the demo
recipe — the unparseable amount "to taste" passes through unchanged. -/
theorem C4_scale_behavior_witness :
    scaleAmountOpt ⟨1, 2⟩ (some "to taste") = some "to taste" :=
  (C4_scale_behavior rScaleDemo ⟨1, 2⟩ (by decide)).2.2.2.2.2.2.1
    "to taste" (by decide)

/-! ## Claim C5 -/

/-- C5 (code bug in the source): the spec's error-handling contract says
no command handler may throw an unhandled exception — every handler must
return a structured response with human-readable text.  Two deterministic
inputs violate it, for every LLM behaviour: (1) `"timer info"` on a
session whose stored current step is unset (exactly the state
`/start_cooking` creates for a recipe with no prep steps) reaches
`_enhance_step_with_timer_info(None)` whose `re.search(pattern, None)`
raises `TypeError`; (2) `"double it"` on a recipe whose `servings` field
is unset reaches `recipe.servings * 2` in `_handle_serving_adjustment`,
raising `TypeError`.  Both escape `process_voice_command` to the
caller. -/
theorem C5_unhandled_exceptions (llmRemoval : Py String) (newId : Int)
    (llmSubs : List IngredientSubstitution) (llmRewrite : Option OptimizedRecipe)
    (session : CookingSession) (recipe : OptimizedRecipe) :
    (session.current_step = none →
      process_voice_command llmRemoval newId llmSubs llmRewrite "timer info"
        session recipe =
        .error (.typeError "expected string or bytes-like object")) ∧
    (recipe.servings = none →
      process_voice_command llmRemoval newId llmSubs llmRewrite "double it"
        session recipe =
        .error (.typeError "unsupported operand type")) := by
  constructor
  · intro h
    have hroute : classify_route "timer info" = Route.fallback := by decide
    have hfb : fallback_dispatch newId llmSubs llmRewrite "timer info" session recipe =
        handle_timer_info session recipe := rfl
    unfold process_voice_command
    rw [hroute]
    show fallback_dispatch newId llmSubs llmRewrite "timer info" session recipe = _
    rw [hfb]
    unfold handle_timer_info
    rw [h]
    rfl
  · intro h
    have hroute : classify_route "double it" = Route.serving := by decide
    unfold process_voice_command
    rw [hroute]
    show handle_serving_adjustment llmSubs llmRewrite "double it" recipe session = _
    unfold handle_serving_adjustment
    rw [h]
    rfl

/-- C5 witness: the crash theorem at a concrete session (no stored step)
and recipe. -/
theorem C5_unhandled_exceptions_witness :
    process_voice_command (Except.ok "") 0 [] none "timer info"
        ⟨none, some "prep", true⟩
        ⟨"Empty", [], [], [], none, none, none, none, none⟩ =
      .error (.typeError "expected string or bytes-like object") :=
  (C5_unhandled_exceptions (Except.ok "") 0 [] none ⟨none, some "prep", true⟩
    ⟨"Empty", [], [], [], none, none, none, none, none⟩).1 rfl

/-! ## Claim C6 -/

/-- Recipe bound to an active session, used to exhibit the behaviour of
the keyword-routed serving-adjustment path. -/
def rSoup : OptimizedRecipe :=
  { title := "Soup", ingredients := [⟨"flour", some "2", some "cups", none⟩]
  , prep_phase := [⟨"Mix the flour", some 1, none⟩], cook_phase := []
  , total_time := some 5, prep_time := some 3, cook_time := some 2
  , servings := some 2, difficulty := none }

def soupSession : CookingSession := ⟨some "Mix the flour", some "prep", true⟩

/-- C6, counterexample.  The claim says a `ScaleServings` command persists
the modification result as a new recipe.  The keyword-routed handler
never does: on `"change to 4 servings"` it derives the truthy target 4
and then raises an uncaught `TypeError` while
`adjust_recipe_for_dietary_needs(recipe, None, 4)` builds the
substitution prompt (`", ".join([None])` runs before any `try`), before
any modification or save — no new recipe is persisted and no structured
response is returned at all. -/
theorem C6_counterexample :
    classify_route "change to 4 servings" = Route.serving ∧
    handle_serving_adjustment [] none "change to 4 servings" rSoup soupSession =
      .error (.typeError "sequence item 0: expected str instance, NoneType found") := by
  exact ⟨by decide, rfl⟩

/-- C6 (amended): the dietary `ConvertDiet` handlers and the exact-phrase
scale handler persist the modification as a new recipe and leave the
session and its recipe untouched (on their success path; an LLM failure
is caught by their `try/except` and reported without touching anything);
the keyword-routed `ScaleServings` handler persists nothing and mutates
nothing — a truthy derived target raises an uncaught `TypeError` during
substitution-prompt construction before any modification code runs, and
a falsy target returns the failure response with the session's recipe
unchanged. -/
theorem C6_persistence_policy (newId : Int)
    (llmSubs : List IngredientSubstitution) (llmRewrite : Option OptimizedRecipe)
    (session : CookingSession) (recipe : OptimizedRecipe) :
    (handle_make_vegan newId llmSubs llmRewrite session recipe).recipe = recipe ∧
    (handle_make_vegan newId llmSubs llmRewrite session recipe).session = session ∧
    (handle_make_vegan newId llmSubs llmRewrite session recipe).saved =
      [save_modified_recipe
        (modify_recipe llmSubs llmRewrite recipe recipe.servings).modified_recipe
        "vegan"] ∧
    (handle_make_vegetarian newId llmSubs llmRewrite session recipe).recipe = recipe ∧
    (handle_make_gluten_free newId llmSubs llmRewrite session recipe).recipe = recipe ∧
    (handle_make_dairy_free newId llmSubs llmRewrite session recipe).recipe = recipe ∧
    (∀ factor,
      (handle_scale_recipe newId llmSubs llmRewrite session recipe factor).recipe =
        recipe ∧
      (handle_scale_recipe newId llmSubs llmRewrite session recipe factor).saved.length =
        1) ∧
    (∀ cmd o,
      handle_serving_adjustment llmSubs llmRewrite cmd recipe session = .ok o →
      o.saved = [] ∧ o.recipe = recipe ∧ o.session = session) ∧
    (∀ cmd n,
      serving_target (pyLower cmd) recipe.servings = .ok (some n) → n ≠ 0 →
      handle_serving_adjustment llmSubs llmRewrite cmd recipe session =
        .error (.typeError "sequence item 0: expected str instance, NoneType found")) := by
  refine ⟨rfl, rfl, rfl, rfl, rfl, rfl, fun factor => ⟨rfl, rfl⟩, ?_, ?_⟩
  · intro cmd o hok
    unfold handle_serving_adjustment at hok
    repeat' split at hok
    any_goals exact Except.noConfusion hok
    all_goals
      have h2 := Except.ok.inj hok
      subst h2
      exact ⟨rfl, rfl, rfl⟩
  · intro cmd n ht hn
    unfold handle_serving_adjustment
    simp only [ht]
    rw [if_pos hn]
    rfl

/-- C6 witness: the policy theorem's crash component at the concrete
command `"change to 4 servings"` on the session's 2-serving recipe. -/
theorem C6_persistence_policy_witness :
    handle_serving_adjustment [] none "change to 4 servings" rSoup soupSession =
      .error (.typeError "sequence item 0: expected str instance, NoneType found") :=
  (C6_persistence_policy 0 [] none soupSession rSoup).2.2.2.2.2.2.2.2
    "change to 4 servings" 4 rfl (by decide)

/-! ## Claim C7 -/

/-- Whenever the dietary keyword guard of `process_voice_command` passes,
the inner dietary `if/elif` chain matches (so its implicit
`return None` fallthrough is unreachable). -/
theorem inner_dietary_of_any (cl : String)
    (h : dietary_keywords.any (fun k => pyContains cl k) = true) :
    ∃ k, inner_dietary cl = some k ∧
      k ∈ ["vegan", "vegetarian", "gluten-free", "dairy-free"] := by
  unfold inner_dietary
  by_cases h1 : pyContains cl "vegan" = true
  · exact ⟨"vegan", by rw [if_pos h1], by decide⟩
  · rw [if_neg h1]
    by_cases h2 : pyContains cl "vegetarian" = true
    · exact ⟨"vegetarian", by rw [if_pos h2], by decide⟩
    · rw [if_neg h2]
      by_cases h3 : (pyContains cl "gluten-free" || pyContains cl "gluten free") = true
      · exact ⟨"gluten-free", by rw [if_pos h3], by decide⟩
      · rw [if_neg h3]
        by_cases h4 : (pyContains cl "dairy-free" || pyContains cl "dairy free") = true
        · exact ⟨"dairy-free", by rw [if_pos h4], by decide⟩
        · exfalso
          simp only [dietary_keywords, List.any_cons, List.any_nil, Bool.or_false,
            Bool.or_eq_true] at h
          rcases h with h | h | h | h
          · exact h1 h
          · exact h2 h
          · exact h3 (by rw [h]; rfl)
          · exact h4 (by rw [h]; rfl)

/-- C7, counterexample.  The claim says a command containing the spaced
variant `gluten free` is classified as `ConvertDiet(gluten-free)` ahead of
the serving/scale keywords.  The source's dietary guard only tests
`vegan`, `vegetarian`, `gluten-free`, `dairy-free` (hyphenated), so
`"change to gluten free"` — which contains the spaced variant and the
serving keyword `change` — is routed to the serving-adjustment branch
instead of the dietary branch. -/
theorem C7_counterexample :
    classify_route "change to gluten free" = Route.serving ∧
    Route.serving ≠ Route.dietary "gluten-free" := by
  exact ⟨by decide, by decide⟩

/-- C7 (amended): a command containing one of the **hyphenated** dietary
keywords `vegan` / `vegetarian` / `gluten-free` / `dairy-free` (and no
ingredient-removal match, which has higher priority) is classified as that
dietary conversion, ahead of the serving/scale keywords, with the inner
priority order vegan, vegetarian, gluten-free, dairy-free; commands with
only spaced variants fall through to the serving/exact-phrase handling
(spaced variants are recognised solely as fixed whole-command phrases in
the legacy dispatcher); and no serving count is parsed from the command or
attached — the conversion handlers always target the recipe's current
servings. -/
theorem C7_dietary_routing (cmd : String)
    (h1 : remove_match (pyStrip (pyLower cmd)) = none)
    (h2 : dietary_keywords.any
      (fun k => pyContains (pyStrip (pyLower cmd)) k) = true) :
    (∃ kind, inner_dietary (pyStrip (pyLower cmd)) = some kind ∧
      classify_route cmd = Route.dietary kind ∧
      kind ∈ ["vegan", "vegetarian", "gluten-free", "dairy-free"]) ∧
    (∀ newId llmSubs llmRewrite session recipe,
      (handle_make_vegan newId llmSubs llmRewrite session recipe).saved =
        [save_modified_recipe
          (modify_recipe llmSubs llmRewrite recipe recipe.servings).modified_recipe
          "vegan"] ∧
      (handle_make_gluten_free newId llmSubs llmRewrite session recipe).saved =
        [save_modified_recipe
          (modify_recipe llmSubs llmRewrite recipe recipe.servings).modified_recipe
          "gluten-free"]) := by
  constructor
  · obtain ⟨kind, hk, hmem⟩ := inner_dietary_of_any (pyStrip (pyLower cmd)) h2
    refine ⟨kind, hk, ?_, hmem⟩
    unfold classify_route
    simp [h1, h2, hk]
  · intro newId llmSubs llmRewrite session recipe
    exact ⟨rfl, rfl⟩

/-- C7 witness: the routing theorem at the concrete command
`"make it vegan"`. -/
theorem C7_dietary_routing_witness :
    classify_route "make it vegan" = Route.dietary "vegan" := by
  obtain ⟨⟨kind, hk, hc, -⟩, -⟩ :=
    C7_dietary_routing "make it vegan" (by decide) (by decide)
  have hv : inner_dietary (pyStrip (pyLower "make it vegan")) = some "vegan" := by
    decide
  rw [hv] at hk
  rw [← Option.some.inj hk] at hc
  exact hc

/-! ## Claim C8 -/

/-- Recipe with 4 servings bound to a session, for the zero-target case. -/
def rFourServings : OptimizedRecipe :=
  { title := "Rice", ingredients := [⟨"rice", some "2", some "cups", none⟩]
  , prep_phase := [⟨"Rinse the rice", some 2, none⟩], cook_phase := []
  , total_time := some 20, prep_time := some 5, cook_time := some 15
  , servings := some 4, difficulty := none }

def riceSession : CookingSession := ⟨some "Rinse the rice", some "prep", true⟩

/-- Recipe with 3 servings for the spec's "half recipe" example. -/
def rThreeServings : OptimizedRecipe :=
  { title := "Curry", ingredients := []
  , prep_phase := [⟨"Dice the onion", some 2, none⟩], cook_phase := []
  , total_time := some 25, prep_time := some 5, cook_time := some 20
  , servings := some 3, difficulty := none }

def currySession : CookingSession := ⟨some "Dice the onion", some "prep", true⟩

/-- C8, counterexample.  The claim (and the spec's example) says
`"half recipe"` with current servings 3 yields `ScaleServings` with
target 1.  The handler does derive the target `max(1, 3 // 2) = 1`, but
then raises an uncaught `TypeError` while building the substitution
prompt (`", ".join([None])` in `_create_substitution_prompt`, reached via
`adjust_recipe_for_dietary_needs(recipe, None, 1)` before any `try`), so
no `ScaleServings` result is ever produced; and a matched explicit count
of 0 (`"scale to 0 servings"`, pattern present with `N = 0`) is falsy and
yields the failure response rather than a scaling. -/
theorem C8_counterexample :
    classify_route "half recipe" = Route.serving ∧
    serving_target (pyLower "half recipe") rThreeServings.servings =
      .ok (some 1) ∧
    handle_serving_adjustment [] none "half recipe" rThreeServings currySession =
      .error (.typeError "sequence item 0: expected str instance, NoneType found") ∧
    serving_match (pyLower "scale to 0 servings") = some 0 ∧
    handle_serving_adjustment [] none "scale to 0 servings" rFourServings
        riceSession =
      .ok { response := "I couldn't determine how to adjust the serving size. Please specify a number of servings or say 'double' or 'half'."
          , session := riceSession, recipe := rFourServings, saved := []
          , success := some false } := by
  exact ⟨by decide, rfl, rfl, by decide, rfl⟩

/-- C8 (amended): a command containing a serving/scale keyword (and no
higher-priority removal or dietary pattern) routes to the
serving-adjustment handler, whose derived target is the explicit matched
count when the `"<N> (serving|servings|people|person)"` pattern is
present, else current servings × 2 for "double", else
`max(1, ⌊current servings / 2⌋)` for "half" — floor division with a
minimum of one serving, never zero ("half recipe" with current servings 3
derives 1).  No `ScaleServings` result is ever produced, though: every
truthy derived target then raises an uncaught `TypeError` during
substitution-prompt construction before any scaling occurs, and a falsy
or absent target yields the failure response. -/
theorem C8_serving_interpretation (cmd : String) (recipe : OptimizedRecipe)
    (session : CookingSession) (llmSubs : List IngredientSubstitution)
    (llmRewrite : Option OptimizedRecipe) (s : Int)
    (hs : recipe.servings = some s) :
    (∀ n : Nat, serving_match (pyLower cmd) = some n →
      serving_target (pyLower cmd) recipe.servings = .ok (some (n : Int))) ∧
    (serving_match (pyLower cmd) = none →
      pyContains (pyLower cmd) "double" = true →
      serving_target (pyLower cmd) recipe.servings = .ok (some (s * 2))) ∧
    (serving_match (pyLower cmd) = none →
      pyContains (pyLower cmd) "double" = false →
      pyContains (pyLower cmd) "half" = true →
      serving_target (pyLower cmd) recipe.servings =
        .ok (some (max 1 (Int.fdiv s 2)))) ∧
    (1 ≤ max 1 (Int.fdiv s 2) ∧ max 1 (Int.fdiv 3 2) = 1) ∧
    (∀ n : Int, serving_target (pyLower cmd) recipe.servings = .ok (some n) →
      n ≠ 0 →
      handle_serving_adjustment llmSubs llmRewrite cmd recipe session =
        .error (.typeError "sequence item 0: expected str instance, NoneType found")) ∧
    (∀ n : Int, serving_target (pyLower cmd) recipe.servings = .ok (some n) →
      n = 0 →
      handle_serving_adjustment llmSubs llmRewrite cmd recipe session =
        .ok { response := "I couldn't determine how to adjust the serving size. Please specify a number of servings or say 'double' or 'half'."
            , session := session, recipe := recipe, saved := []
            , success := some false }) ∧
    (serving_target (pyLower cmd) recipe.servings = .ok none →
      handle_serving_adjustment llmSubs llmRewrite cmd recipe session =
        .ok { response := "I couldn't determine how to adjust the serving size. Please specify a number of servings or say 'double' or 'half'."
            , session := session, recipe := recipe, saved := []
            , success := some false }) := by
  refine ⟨?_, ?_, ?_, ⟨le_max_left 1 _, by decide⟩, ?_, ?_, ?_⟩
  · intro n hm
    unfold serving_target
    simp only [hm]
  · intro hm hd
    unfold serving_target
    simp only [hm]
    rw [if_pos hd, hs]
  · intro hm hd hh
    unfold serving_target
    simp only [hm]
    rw [if_neg (by rw [hd]; exact Bool.false_ne_true), if_pos hh, hs]
  · intro n ht hn
    unfold handle_serving_adjustment
    simp only [ht]
    rw [if_pos hn]
    rfl
  · intro n ht hn
    unfold handle_serving_adjustment
    simp only [ht]
    rw [if_neg (fun hcon => hcon hn)]
  · intro ht
    unfold handle_serving_adjustment
    simp only [ht]

/-- C8 witness: the derivation conjunct for "half" applied at
`"half recipe"` with current servings 3 — the derived target is
`max(1, 3 // 2)`. -/
theorem C8_serving_interpretation_witness :
    serving_target (pyLower "half recipe") rThreeServings.servings =
      .ok (some (max 1 (Int.fdiv 3 2))) :=
  (C8_serving_interpretation "half recipe" rThreeServings currySession [] none 3
    rfl).2.2.1 (by decide) (by decide) (by decide)

/-! ## Claim C9 -/

theorem detect_timer_go_range (text : List Char)
    (ps : List (List Char → Option Nat)) (n : Nat)
    (h : detect_timer_go text ps = some n) : 0 < n ∧ n ≤ 300 := by
  induction ps with
  | nil => exact absurd h (by simp [detect_timer_go])
  | cons p ps ih =>
    unfold detect_timer_go at h
    cases hm : scanFirst p text with
    | none =>
      rw [hm] at h
      exact ih h
    | some m =>
      rw [hm] at h
      dsimp only at h
      by_cases hr : 0 < m ∧ m ≤ 300
      · rw [if_pos hr] at h
        cases h
        exact hr
      · rw [if_neg hr] at h
        exact ih h

theorem detect_timer_go_isSome (text : List Char)
    (ps : List (List Char → Option Nat)) :
    (detect_timer_go text ps).isSome = true ↔
      ∃ p ∈ ps, ∃ n, scanFirst p text = some n ∧ 0 < n ∧ n ≤ 300 := by
  induction ps with
  | nil => simp [detect_timer_go]
  | cons p ps ih =>
    unfold detect_timer_go
    cases hm : scanFirst p text with
    | none =>
      rw [ih]
      constructor
      · rintro ⟨q, hq, k, hk, hrk⟩
        exact ⟨q, List.mem_cons_of_mem p hq, k, hk, hrk⟩
      · rintro ⟨q, hq, k, hk, hrk⟩
        rcases List.mem_cons.mp hq with rfl | hq'
        · rw [hm] at hk
          exact absurd hk (by simp)
        · exact ⟨q, hq', k, hk, hrk⟩
    | some m =>
      dsimp only
      by_cases hr : 0 < m ∧ m ≤ 300
      · rw [if_pos hr]
        constructor
        · intro _
          exact ⟨p, List.mem_cons_self p ps, m, hm, hr⟩
        · intro _
          rfl
      · rw [if_neg hr]
        rw [ih]
        constructor
        · rintro ⟨q, hq, k, hk, hrk⟩
          exact ⟨q, List.mem_cons_of_mem p hq, k, hk, hrk⟩
        · rintro ⟨q, hq, k, hk, hrk⟩
          rcases List.mem_cons.mp hq with rfl | hq'
          · rw [hm] at hk
            cases hk
            exact absurd hrk hr
          · exact ⟨q, hq', k, hk, hrk⟩

/-- C9: the duration extractor returns exactly the spec's examples
(`"Simmer for 12 minutes" ↦ 12`, `"Preheat oven to 400 degrees" ↦`
nothing, `"bake for 301 minutes" ↦` nothing, `"cook for 1 min" ↦ 1`);
every returned value satisfies `0 < N ≤ 300`; and a value is returned
exactly when some pattern of the ordered list has its first match in that
range (out-of-range matches fall through to the next pattern and, when no
pattern's first match is in range, nothing is returned).  The extractor is
a total function of its string input (it cannot throw). -/
theorem C9_duration_extractor :
    detect_timer_in_instruction "Simmer for 12 minutes" = some 12 ∧
    detect_timer_in_instruction "Preheat oven to 400 degrees" = none ∧
    detect_timer_in_instruction "bake for 301 minutes" = none ∧
    detect_timer_in_instruction "cook for 1 min" = some 1 ∧
    (∀ s n, detect_timer_in_instruction s = some n → 0 < n ∧ n ≤ 300) ∧
    (∀ s, (detect_timer_in_instruction s).isSome = true ↔
      ∃ p ∈ duration_patterns, ∃ n,
        scanFirst p s.toList = some n ∧ 0 < n ∧ n ≤ 300) := by
  refine ⟨by decide, by decide, by decide, by decide, ?_, ?_⟩
  · intro s n h
    exact detect_timer_go_range s.toList duration_patterns n h
  · intro s
    exact detect_timer_go_isSome s.toList duration_patterns

/-- C9 witness: the range property applied at the concrete extraction
from "Simmer for 12 minutes". -/
theorem C9_duration_extractor_witness : 0 < 12 ∧ 12 ≤ 300 :=
  C9_duration_extractor.2.2.2.2.1 "Simmer for 12 minutes" 12
    C9_duration_extractor.1

end PrepPad
